import Mathlib

/-!
# Meeting attendance taker: lifecycle, admission and view logic

A shallow embedding of the repository's server helper (`src/server.js`), its
schema (`src/database.js`) and the two stateful client views
(`src/client/src/pages/AdminDashboard.jsx`, `src/client/src/pages/AttendeeView.jsx`).

Conventions of the embedding:
* a JavaScript value that may be `null` or `undefined` is an `Option`;
* an `async` handler is a function of the state at the time its awaited request
  settles and of the reply it receives; where the order of replies matters (the
  status controls of the dashboard, the check and the insert of an admission) the
  sending and the settling of a request are separate steps;
* a React state tuple is a structure, one field per `useState` cell.
-/

namespace MeetingAttendance

/-! ## Definitions -/

/-! ### `src/server.js`: getLocalIp -/

/-- One entry of `os.networkInterfaces()[name]`: the fields `getLocalIp` reads. -/
structure NetworkInterfaceInfo where
  address : String
  family : String
  internal : Bool
deriving DecidableEq, Repr

/-- The test of the inner `if`: `iface.family === 'IPv4' && !iface.internal`. -/
def isExternalIPv4 (iface : NetworkInterfaceInfo) : Bool :=
  decide (iface.family = "IPv4") && !iface.internal

/-- The inner loop `for (const iface of interfaces[name])`: `some address` when the
loop returns, `none` when it runs to its end. -/
def scanEntries : List NetworkInterfaceInfo → Option String
  | [] => none
  | iface :: rest =>
    if isExternalIPv4 iface then some iface.address else scanEntries rest

/-- The outer loop `for (const name of Object.keys(interfaces))`; the table is the
list of its keys, in key order, each with its entry list. -/
def scanInterfaces : List (String × List NetworkInterfaceInfo) → Option String
  | [] => none
  | (_, entries) :: rest =>
    match scanEntries entries with
    | some address => some address
    | none => scanInterfaces rest

/-- The function `getLocalIp` of `src/server.js`, the interface table passed explicitly. -/
def getLocalIp (interfaces : List (String × List NetworkInterfaceInfo)) : String :=
  match scanInterfaces interfaces with
  | some address => address
  | none => "localhost"

/-- Every entry of the table in enumeration order: interface names in key order,
entries in list order. -/
def allEntries : List (String × List NetworkInterfaceInfo) → List NetworkInterfaceInfo
  | [] => []
  | (_, entries) :: rest => entries ++ allEntries rest

/-! ### `AdminDashboard.jsx` -/

/-- The meeting object held in the `meeting` state cell; a field is `none` when the
object lacks it or holds `null`. -/
structure Meeting where
  id : Option String
  title : Option String
  status : Option String
deriving DecidableEq, Repr

/-- One element of the array answered by `GET /meetings/:id/attendees`. -/
structure AttendeeInfo where
  id : String
  name : String
  signature : String
  timestamp : String
deriving DecidableEq, Repr

/-- Outcome of an awaited axios request: the promise resolves with `data`, or it
rejects with `err.response?.status` (`none` when there is no response). -/
inductive Reply (α : Type) where
  | resolved (data : α)
  | rejected (status : Option Nat)
deriving DecidableEq, Repr

/-- The `useState` cells of `AdminDashboard`. -/
structure Dashboard where
  secret : String
  meeting : Option Meeting
  attendees : List AttendeeInfo
  loading : Bool
  isAuthenticated : Bool
  serverIp : String
deriving DecidableEq, Repr

/-- The handler `fetchAttendees`: its own `try`/`catch` absorbs every rejection. -/
def fetchAttendees (d : Dashboard) (ra : Reply (List AttendeeInfo)) : Dashboard :=
  match ra with
  | .resolved data => { d with attendees := data }
  | .rejected _ => d

/-- The handler `verifyAndFetch`, given the replies to the meeting fetch and to the
attendees fetch. -/
def verifyAndFetch (d : Dashboard) (rm : Reply Meeting)
    (ra : Reply (List AttendeeInfo)) : Dashboard :=
  let d1 := { d with loading := true }
  match rm with
  | .resolved m =>
    let d2 := { d1 with meeting := some m }
    let d3 := fetchAttendees d2 ra
    let d4 := { d3 with isAuthenticated := true }
    { d4 with loading := false }
  | .rejected status =>
    let d2 := if status = some 403 then { d1 with secret := "" } else d1
    { d2 with loading := false }

/-- The updater `prev => ({ ...prev, status: newStatus })`. -/
def withStatus (prev : Option Meeting) (newStatus : String) : Meeting :=
  match prev with
  | some m => { m with status := some newStatus }
  | none => { id := none, title := none, status := some newStatus }

/-- The handler `updateStatus`, given the reply to the status POST and the reply to
the attendees fetch it then starts. -/
def updateStatus (d : Dashboard) (newStatus : String) (rp : Reply Unit)
    (ra : Reply (List AttendeeInfo)) : Dashboard :=
  match rp with
  | .resolved _ =>
    fetchAttendees { d with meeting := some (withStatus d.meeting newStatus) } ra
  | .rejected _ => d

/-- What a control of the dashboard does when clicked. -/
inductive Action where
  | updateStatus (newStatus : String)
  | downloadReport (type : String)
  | fetchAttendees
deriving DecidableEq, Repr

/-- The buttons of the authenticated dashboard. -/
inductive Control where
  | startMeeting
  | endMeeting
  | downloadPdf
  | downloadCsv
  | refresh
deriving DecidableEq, Repr

/-- The `onClick` of each button. -/
def Control.onClick : Control → Action
  | .startMeeting => .updateStatus "ACTIVE"
  | .endMeeting => .updateStatus "ENDED"
  | .downloadPdf => .downloadReport "pdf"
  | .downloadCsv => .downloadReport "csv"
  | .refresh => .fetchAttendees

/-- The buttons rendered for a meeting: Start only under `meeting.status === 'PENDING'`,
End only under `meeting.status === 'ACTIVE'`, the exports and the refresh always. -/
def controls (m : Meeting) : List Control :=
  (if m.status = some "PENDING" then [Control.startMeeting] else []) ++
  (if m.status = some "ACTIVE" then [Control.endMeeting] else []) ++
  [Control.downloadPdf, Control.downloadCsv, Control.refresh]

/-- The buttons on screen: none on the access form and on the loading screen. -/
def offered (d : Dashboard) : List Control :=
  if !d.isAuthenticated && !d.loading then []
  else if d.loading then []
  else match d.meeting with
    | some m => controls m
    | none => []

/-- A request the dashboard has sent and whose reply it still awaits. -/
inductive Request where
  | statusPost (newStatus : String)
  | attendeesFetch
deriving DecidableEq, Repr

/-- The dashboard between two events: its state cells and the requests in flight,
oldest first. -/
structure LiveDashboard where
  view : Dashboard
  inFlight : List Request
deriving DecidableEq, Repr

/-- What happens to a mounted dashboard: a click on a control, or the reply to one of
the requests in flight, named by its position. -/
inductive DashEvent where
  | click (control : Control)
  | postSettles (index : Nat) (reply : Reply Unit)
  | fetchSettles (index : Nat) (reply : Reply (List AttendeeInfo))
deriving DecidableEq, Repr

/-- One event. A click on a control that is on screen sends the request of its handler
and returns at the `await`: `updateStatus` sends the status POST, the refresh button
sends the attendees fetch, an export opens a window. Nothing disables a control while a
request is in flight. When a status POST resolves, `updateStatus` resumes: it applies
the updater `prev => ({ ...prev, status: newStatus })` to the state of that moment and
starts an attendees fetch; when it rejects, the `catch` only alerts. When an attendees
fetch settles, `fetchAttendees` resumes. -/
def liveStep (s : LiveDashboard) : DashEvent → LiveDashboard
  | .click control =>
    if control ∈ offered s.view then
      match control.onClick with
      | .updateStatus newStatus =>
        { s with inFlight := s.inFlight ++ [.statusPost newStatus] }
      | .downloadReport _ => s
      | .fetchAttendees => { s with inFlight := s.inFlight ++ [.attendeesFetch] }
    else s
  | .postSettles index reply =>
    match s.inFlight.get? index with
    | some (.statusPost newStatus) =>
      match reply with
      | .resolved _ =>
        { view := { s.view with meeting := some (withStatus s.view.meeting newStatus) },
          inFlight := s.inFlight.eraseIdx index ++ [.attendeesFetch] }
      | .rejected _ => { s with inFlight := s.inFlight.eraseIdx index }
    | _ => s
  | .fetchSettles index reply =>
    match s.inFlight.get? index with
    | some .attendeesFetch =>
      { view := fetchAttendees s.view reply, inFlight := s.inFlight.eraseIdx index }
    | _ => s

/-- The states the dashboard passes through during a sequence of events, the starting
state first. -/
def liveTrace (s : LiveDashboard) : List DashEvent → List LiveDashboard
  | [] => [s]
  | e :: rest => s :: liveTrace (liveStep s e) rest

/-- The status shown in the header: `meeting.status`. -/
def displayedStatus (d : Dashboard) : Option String :=
  match d.meeting with
  | some m => m.status
  | none => none

/-- The lifecycle order on displayed statuses: stay, PENDING to ACTIVE, ACTIVE to ENDED. -/
def Forward (a b : Option String) : Prop :=
  a = b ∨ (a = some "PENDING" ∧ b = some "ACTIVE") ∨ (a = some "ACTIVE" ∧ b = some "ENDED")

instance (a b : Option String) : Decidable (Forward a b) :=
  inferInstanceAs (Decidable
    (a = b ∨ (a = some "PENDING" ∧ b = some "ACTIVE") ∨
      (a = some "ACTIVE" ∧ b = some "ENDED")))

/-! ### `AttendeeView.jsx` -/

/-- The `useState` cells of `AttendeeView`. -/
structure AttendeeView where
  meeting : Option Meeting
  name : String
  loading : Bool
  submitted : Bool
  isSubmitting : Bool
  errorMsg : String
  logs : List String
deriving DecidableEq, Repr

/-- The state of the first render: the initial values passed to `useState`. -/
def initialView : AttendeeView :=
  { meeting := none, name := "", loading := true, submitted := false,
    isSubmitting := false, errorMsg := "", logs := [] }

/-- The browser's `localStorage`: key and value pairs, at most one per key. -/
abbrev Storage := List (String × String)

/-- The call `localStorage.getItem(key)`: `none` stands for `null`. -/
def getItem (store : Storage) (key : String) : Option String :=
  match store.find? (fun kv => decide (kv.1 = key)) with
  | some kv => some kv.2
  | none => none

/-- The call `localStorage.setItem(key, value)`. -/
def setItem (store : Storage) (key value : String) : Storage :=
  (key, value) :: store.filter (fun kv => !decide (kv.1 = key))

/-- The signature pad behind the `sigCanvas` ref: what `isEmpty()` answers and what
`toDataURL('image/png')` returns on its canvas, or the message of the error that call
throws. -/
structure Canvas where
  empty : Bool
  dataURL : Except String String
deriving Repr

/-- What `handleSubmit` reads from the browser. -/
structure Browser where
  localStorage : Storage
  canvas : Canvas
  /-- The reading of `new Date().toLocaleTimeString()`. -/
  clock : String
  /-- The draw of `Math.random().toString(36).substring(2)`. -/
  random : String
deriving Repr

/-- The JSON body of `POST /attend`. -/
structure AttendBody where
  meeting_id : String
  name : String
  signature : String
  ip_hash : String
deriving DecidableEq, Repr

/-- Outcome of the awaited `axios.post`: it resolves, or it rejects with `err.message`
and `err.response?.status` (`none` when no response arrived). -/
inductive PostReply where
  | resolved
  | rejected (status : Option Nat) (message : String)
deriving DecidableEq, Repr

/-- The code points `String.prototype.trim` strips: WhiteSpace and LineTerminator of
ECMAScript. -/
def jsIsWhiteSpace (c : Char) : Bool :=
  let n := c.toNat
  n = 9 || n = 10 || n = 11 || n = 12 || n = 13 || n = 32 || n = 160 || n = 5760 ||
  (8192 ≤ n && n ≤ 8202) || n = 8232 || n = 8233 || n = 8239 || n = 8287 ||
  n = 12288 || n = 65279

/-- The method `String.prototype.trim`. -/
def jsTrim (s : String) : String :=
  String.mk ((s.data.dropWhile jsIsWhiteSpace).reverse.dropWhile jsIsWhiteSpace).reverse

/-- The helper `addLog`. -/
def addLog (b : Browser) (v : AttendeeView) (msg : String) : AttendeeView :=
  { v with logs := v.logs ++ [b.clock ++ " - " ++ msg] }

/-- What one call of `handleSubmit` leaves behind: the view state, the local storage
and the body of the POST it sent, if it sent one. -/
structure SubmitResult where
  view : AttendeeView
  localStorage : Storage
  sent : Option AttendBody
deriving Repr

/-- The `catch` block around the POST. -/
def onPostRejected (b : Browser) (v : AttendeeView) (status : Option Nat)
    (message : String) : AttendeeView :=
  let v1 := addLog b v ("Error: " ++ message)
  let v2 := match status with
    | some code => addLog b v1 ("Status: " ++ toString code)
    | none => v1
  if status = some 409 then { v2 with submitted := true }
  else { v2 with errorMsg := "Failed: " ++ message, isSubmitting := false }

/-- The device identifier `handleSubmit` sends, and the local storage it leaves: the
stored `device_id` when it is truthy, else a fresh draw that is stored. -/
def deviceIdentity (b : Browser) : String × Storage :=
  match getItem b.localStorage "device_id" with
  | none => (b.random, setItem b.localStorage "device_id" b.random)
  | some stored =>
    if stored = "" then (b.random, setItem b.localStorage "device_id" b.random)
    else (stored, b.localStorage)

/-- The body of the POST `handleSubmit` sends for a generated signature. -/
def attendBody (id : String) (v : AttendeeView) (b : Browser) (signature : String) :
    AttendBody :=
  { meeting_id := id, name := v.name, signature := signature,
    ip_hash := (deviceIdentity b).1 }

/-- The last part of `handleSubmit`, from the device identifier on: the POST and the
handling of its outcome. -/
def sendAttendance (id : String) (v : AttendeeView) (b : Browser) (signature : String)
    (server : AttendBody → PostReply) : SubmitResult :=
  let v4 := addLog b v "Sending POST to /api/attend..."
  let body := attendBody id v b signature
  match server body with
  | .resolved =>
    { view := { addLog b v4 "Success response received" with submitted := true },
      localStorage := setItem (deviceIdentity b).2 ("attended_" ++ id) "true",
      sent := some body }
  | .rejected status message =>
    { view := onPostRejected b v4 status message, localStorage := (deviceIdentity b).2,
      sent := some body }

/-- The handler `handleSubmit` for the meeting `id` of the route; `server` is the
reply the POST receives. -/
def handleSubmit (id : String) (v : AttendeeView) (b : Browser)
    (server : AttendBody → PostReply) : SubmitResult :=
  let v0 := addLog b { v with errorMsg := "" } "Submit clicked"
  if jsTrim v.name = "" then
    { view := { addLog b v0 "Validation failed: No name" with
                errorMsg := "Please enter your name" },
      localStorage := b.localStorage, sent := none }
  else if b.canvas.empty then
    { view := { addLog b v0 "Validation failed: No signature" with
                errorMsg := "Please sign your name" },
      localStorage := b.localStorage, sent := none }
  else
    let v1 := addLog b { v0 with isSubmitting := true } "Generating signature..."
    let v2 := addLog b v1 "Canvas retrieved (Raw)"
    match b.canvas.dataURL with
    | .error message =>
      { view := { addLog b v2 ("SIG ERROR: " ++ message) with isSubmitting := false },
        localStorage := b.localStorage, sent := none }
    | .ok signature =>
      let v3 := addLog b v2
        ("Signature generated (" ++ toString signature.length ++ " chars)")
      sendAttendance id v3 b signature server

/-- The handler `fetchStatus`, given the reply to `GET /meetings/:id`. -/
def fetchStatus (v : AttendeeView) (r : Reply Meeting) : AttendeeView :=
  match r with
  | .resolved m => { v with meeting := some m, loading := false }
  | .rejected _ => { v with loading := false }

/-- The mount effect: a truthy `attended_<id>` entry marks the view as submitted. -/
def mountEffect (id : String) (v : AttendeeView) (b : Browser) : AttendeeView :=
  let v1 := addLog b v "Component mounted"
  match getItem b.localStorage ("attended_" ++ id) with
  | some s => if s = "" then v1 else { v1 with submitted := true }
  | none => v1

/-- The handler `clearSignature`, seen from the state cells. -/
def clearSignature (v : AttendeeView) : AttendeeView :=
  { v with errorMsg := "" }

/-- The screens `AttendeeView` can return. -/
inductive Screen where
  | loading
  | notFound
  | checkedIn
  | waiting
  | closed
  | form
deriving DecidableEq, Repr

/-- The chain of `return`s at the end of `AttendeeView`. -/
def render (v : AttendeeView) : Screen :=
  if v.loading then .loading
  else match v.meeting with
    | none => .notFound
    | some m =>
      if v.submitted then .checkedIn
      else if m.status = some "PENDING" then .waiting
      else if m.status = some "ENDED" then .closed
      else .form

/-- What can happen to a mounted `AttendeeView`. -/
inductive ViewEvent where
  | mounted
  | statusReply (r : Reply Meeting)
  | nameChange (value : String)
  | clearSignature
  | submit (server : AttendBody → PostReply)

/-- One event; the name field, the Clear button and `onSubmit` exist only on the form. -/
def viewStep (id : String) (v : AttendeeView) (b : Browser) : ViewEvent → AttendeeView
  | .mounted => mountEffect id v b
  | .statusReply r => fetchStatus v r
  | .nameChange value => if render v = .form then { v with name := value } else v
  | .clearSignature => if render v = .form then clearSignature v else v
  | .submit server => if render v = .form then (handleSubmit id v b server).view else v

/-- The states the view of meeting `id` can be in. -/
inductive ViewReachable (id : String) : AttendeeView → Prop where
  | initial : ViewReachable id initialView
  | step (v : AttendeeView) (b : Browser) (e : ViewEvent) :
      ViewReachable id v → ViewReachable id (viewStep id v b e)

/-! ### `src/database.js`: the schema created by initDb -/

/-- A value SQLite stores in a column. REAL is left out: under TEXT affinity a real is
stored as its decimal rendering, as an integer is. -/
inductive SqlValue where
  | null
  | integer (n : Int)
  | text (s : String)
  | blob (bytes : List Nat)
deriving DecidableEq, Repr

/-- The conversion a column declared TEXT applies before storing: numbers become
their rendering as text; NULL and blobs are stored as they are. -/
def textAffinity : SqlValue → SqlValue
  | .integer n => .text (toString n)
  | v => v

/-- The SQL comparison `a = b`: `none` is NULL, the answer when either side is NULL. -/
def sqlEq (a b : SqlValue) : Option Bool :=
  match a, b with
  | .null, _ => none
  | _, .null => none
  | x, y => some (decide (x = y))

/-- The SQL test `x IN (v1, ..., vn)` on a list of non-NULL literals: NULL when `x`
is NULL and the list is not empty. -/
def sqlIn (x : SqlValue) (vs : List SqlValue) : Option Bool :=
  match x, vs with
  | _, [] => some false
  | .null, _ => none
  | x, vs => some (vs.any (fun v => decide (x = v)))

/-- A CHECK constraint is violated only when its expression is false; a NULL result
is not a violation. -/
def checkHolds (r : Option Bool) : Bool :=
  match r with
  | some false => false
  | _ => true

/-- The literals of `CHECK(status IN ('PENDING', 'ACTIVE', 'ENDED'))`. -/
def statusDomain : List SqlValue :=
  [.text "PENDING", .text "ACTIVE", .text "ENDED"]

/-- The column constraint `CHECK(status IN ('PENDING', 'ACTIVE', 'ENDED'))`. -/
def statusCheck (status : SqlValue) : Bool :=
  checkHolds (sqlIn status statusDomain)

/-- A row of the table `meetings`. -/
structure MeetingRow where
  id : SqlValue
  title : SqlValue
  admin_secret : SqlValue
  status : SqlValue
  created_at : SqlValue
deriving DecidableEq, Repr

/-- A row of the table `attendees`. -/
structure AttendeeRow where
  id : SqlValue
  meeting_id : SqlValue
  name : SqlValue
  signature : SqlValue
  ip_hash : SqlValue
  timestamp : SqlValue
deriving DecidableEq, Repr

/-- The two tables of `attendance.db`. -/
structure Store where
  meetings : List MeetingRow
  attendees : List AttendeeRow
deriving DecidableEq, Repr

/-- The constraint an INSERT or UPDATE failed on. -/
inductive SqlError where
  | notNull (column : String)
  | check (column : String)
  | primaryKey
  | foreignKey
deriving DecidableEq, Repr

/-- An `INSERT INTO meetings`: a column is `none` when the statement does not name it. -/
structure MeetingInsert where
  id : Option SqlValue
  title : Option SqlValue
  admin_secret : Option SqlValue
  status : Option SqlValue
  created_at : Option SqlValue
deriving DecidableEq, Repr

/-- The row an `INSERT INTO meetings` proposes: a column the statement does not name
takes its DEFAULT (`'PENDING'` for status, CURRENT_TIMESTAMP, read as `now`, for
created_at, NULL elsewhere) and every column applies its affinity to a value the
statement gives. The columns declared TEXT apply `textAffinity`. The column created_at
is declared DATETIME and so has NUMERIC affinity, under which the engine stores text
that reads as a number as that number: that conversion is the engine's and is the
parameter `numeric`. A CURRENT_TIMESTAMP reading has the form YYYY-MM-DD HH:MM:SS and
is stored as text. -/
def proposedMeeting (numeric : SqlValue → SqlValue) (ins : MeetingInsert) (now : String) :
    MeetingRow :=
  { id := textAffinity (ins.id.getD .null),
    title := textAffinity (ins.title.getD .null),
    admin_secret := textAffinity (ins.admin_secret.getD .null),
    status := textAffinity (ins.status.getD (.text "PENDING")),
    created_at :=
      match ins.created_at with
      | some value => numeric value
      | none => .text now }

/-- An `INSERT INTO meetings` under the constraints of the schema: NOT NULL on title
and admin_secret, the CHECK on status, uniqueness of the primary key. -/
def insertMeeting (numeric : SqlValue → SqlValue) (table : List MeetingRow)
    (ins : MeetingInsert) (now : String) : Except SqlError (List MeetingRow) :=
  let row := proposedMeeting numeric ins now
  if row.title = .null then .error (.notNull "title")
  else if row.admin_secret = .null then .error (.notNull "admin_secret")
  else if !statusCheck row.status then .error (.check "status")
  else if table.any (fun r => sqlEq r.id row.id = some true) then .error .primaryKey
  else .ok (table ++ [row])

/-- The statement `UPDATE meetings SET status = ? WHERE id = ?` under the CHECK on
status: a violation on any matched row aborts the statement. The comparison of the
WHERE clause applies the TEXT affinity of the column id to the parameter, so the
number 7 matches the id '7'. -/
def updateMeetingStatus (table : List MeetingRow) (id status : SqlValue) :
    Except SqlError (List MeetingRow) :=
  let stored := textAffinity status
  let key := textAffinity id
  if table.any (fun r => sqlEq r.id key = some true) && !statusCheck stored then
    .error (.check "status")
  else
    .ok (table.map (fun r => if sqlEq r.id key = some true then { r with status := stored }
                             else r))

/-- An `INSERT INTO attendees` naming every column but `timestamp`, under the
constraints of the schema: NOT NULL on meeting_id, name and signature, uniqueness of
the primary key, and the foreign key into `meetings(id)`. The column timestamp takes
its DEFAULT, a CURRENT_TIMESTAMP reading `now` of the form YYYY-MM-DD HH:MM:SS, which
its NUMERIC affinity leaves as text. -/
def insertAttendee (st : Store) (id meeting_id name signature ip_hash : SqlValue)
    (now : String) : Except SqlError Store :=
  let row : AttendeeRow :=
    { id := textAffinity id, meeting_id := textAffinity meeting_id,
      name := textAffinity name, signature := textAffinity signature,
      ip_hash := textAffinity ip_hash, timestamp := .text now }
  if row.meeting_id = .null then .error (.notNull "meeting_id")
  else if row.name = .null then .error (.notNull "name")
  else if row.signature = .null then .error (.notNull "signature")
  else if st.attendees.any (fun r => sqlEq r.id row.id = some true) then .error .primaryKey
  else if !st.meetings.any (fun m => sqlEq m.id row.meeting_id = some true) then
    .error .foreignKey
  else .ok { st with attendees := st.attendees ++ [row] }

/-! ### The admission handler of `routes.js` -/

/-- Modelled from the spec: the outcomes of an admission call, one per HTTP status of
the `POST /attend` row of the interface table in section 6 (`routes.js` is missing). -/
inductive AttendOutcome where
  | created
  | validationFailed
  | forbidden
  | notFound
  | conflict
  | internal
deriving DecidableEq, Repr

/-- Modelled from the spec: the HTTP status of an outcome, as section 6 lists them. -/
def AttendOutcome.httpStatus : AttendOutcome → Nat
  | .created => 200
  | .validationFailed => 400
  | .forbidden => 403
  | .notFound => 404
  | .conflict => 409
  | .internal => 500

/-- Modelled from the spec: the lookup of the meeting a request names, the `getMeeting`
read of section 4.1 on the table `meetings`. -/
def findMeeting (st : Store) (meeting_id : String) : Option MeetingRow :=
  st.meetings.find? (fun m => decide (m.id = .text meeting_id))

/-- The rows recorded for a meeting and a device fingerprint. -/
def rowsFor (rows : List AttendeeRow) (meeting_id ip_hash : SqlValue) : List AttendeeRow :=
  rows.filter (fun r => decide (r.meeting_id = meeting_id) && decide (r.ip_hash = ip_hash))

/-- Modelled from the spec: the handler of `POST /attend`, which lives in `routes.js`
and is missing from the sources; `recordAttendance` of section 4.2. In the order the
section lists them: the meeting must exist (NotFound), its status must be ACTIVE
(Forbidden, 403), a recorded entry for the same meeting and device fingerprint makes
the call a Conflict (409) that creates no row, the name must be non-empty after
trimming and the signature non-empty (400), and then one new row is stored under the
identifier `newId` drawn for it; a storage failure is Internal. -/
def recordAttendance (st : Store) (req : AttendBody) (newId now : String) :
    AttendOutcome × Store :=
  match findMeeting st req.meeting_id with
  | none => (.notFound, st)
  | some m =>
    if m.status ≠ .text "ACTIVE" then (.forbidden, st)
    else if rowsFor st.attendees (.text req.meeting_id) (.text req.ip_hash) ≠ [] then
      (.conflict, st)
    else if jsTrim req.name = "" ∨ req.signature = "" then (.validationFailed, st)
    else
      match insertAttendee st (.text newId) (.text req.meeting_id) (.text req.name)
          (.text req.signature) (.text req.ip_hash) now with
      | .ok st1 => (.created, st1)
      | .error _ => (.internal, st)

/-- One admission call as the service receives it. -/
structure Admission where
  request : AttendBody
  newId : String
  now : String
deriving DecidableEq, Repr

/-- Modelled from the spec: the read half of the handler of `POST /attend` (`routes.js`
is missing), which section 5 calls the check of a check-then-act sequence: the answer
the handler settles on from the store it reads, or `none` when every check passes and
it goes on to insert. -/
def admissionCheck (st : Store) (req : AttendBody) : Option AttendOutcome :=
  match findMeeting st req.meeting_id with
  | none => some .notFound
  | some m =>
    if m.status ≠ .text "ACTIVE" then some .forbidden
    else if rowsFor st.attendees (.text req.meeting_id) (.text req.ip_hash) ≠ [] then
      some .conflict
    else if jsTrim req.name = "" ∨ req.signature = "" then some .validationFailed
    else none

/-- Modelled from the spec: the write half of the handler of `POST /attend` (`routes.js`
is missing), the act of section 5: the insert into the store as it is at that moment;
a storage failure is Internal. -/
def admissionInsert (st : Store) (req : AttendBody) (newId now : String) :
    AttendOutcome × Store :=
  match insertAttendee st (.text newId) (.text req.meeting_id) (.text req.name)
      (.text req.signature) (.text req.ip_hash) now with
  | .ok st1 => (.created, st1)
  | .error _ => (.internal, st)

/-- No two attendee rows share both meeting_id and ip_hash. -/
def PairUnique (rows : List AttendeeRow) : Prop :=
  ∀ meeting_id ip_hash : SqlValue, (rowsFor rows meeting_id ip_hash).length ≤ 1

/-! ### `src/database.js`: initDb on the database file -/

/-- One column of a CREATE TABLE statement: its name, declared type and column
constraints, the DEFAULT and CHECK expressions kept as written. -/
structure ColumnDef where
  name : String
  declaredType : String
  primaryKey : Bool
  notNull : Bool
  defaultExpr : Option String
  checkExpr : Option String
deriving DecidableEq, Repr

/-- A table constraint `FOREIGN KEY (column) REFERENCES parentTable(parentColumn)`. -/
structure ForeignKeyDef where
  column : String
  parentTable : String
  parentColumn : String
deriving DecidableEq, Repr

/-- The definition a CREATE TABLE statement records. -/
structure TableDef where
  columns : List ColumnDef
  foreignKeys : List ForeignKeyDef
deriving DecidableEq, Repr

/-- An object of the schema: a table with its definition and rows, a view, or an index. -/
inductive SchemaObject where
  | table (definition : TableDef) (rows : List (List SqlValue))
  | view (sql : String)
  | index (onTable : String) (columns : List String)
deriving DecidableEq, Repr

/-- The state of the database file `attendance.db`: its schema objects by name. -/
abbrev Database := List (String × SchemaObject)

/-- SQLite compares the names of schema objects without regard to ASCII case. -/
def sameName (a b : String) : Bool :=
  decide (a.data.map Char.toLower = b.data.map Char.toLower)

/-- The schema object a name refers to. -/
def lookupObject (db : Database) (name : String) : Option (String × SchemaObject) :=
  db.find? (fun o => sameName o.1 name)

/-- The statement `CREATE TABLE IF NOT EXISTS name (...)`: without effect when a table
or a view of that name exists, an error when an index of that name exists, else the
table is created empty. -/
def createTableIfNotExists (db : Database) (name : String) (definition : TableDef) :
    Except String Database :=
  match lookupObject db name with
  | some (_, .table _ _) => .ok db
  | some (_, .view _) => .ok db
  | some (_, .index _ _) => .error ("there is already an index named " ++ name)
  | none => .ok (db ++ [(name, .table definition [])])

/-- The definition of the first statement of `initDb`. -/
def meetingsDef : TableDef :=
  { columns :=
      [{ name := "id", declaredType := "TEXT", primaryKey := true, notNull := false,
         defaultExpr := none, checkExpr := none },
       { name := "title", declaredType := "TEXT", primaryKey := false, notNull := true,
         defaultExpr := none, checkExpr := none },
       { name := "admin_secret", declaredType := "TEXT", primaryKey := false,
         notNull := true, defaultExpr := none, checkExpr := none },
       { name := "status", declaredType := "TEXT", primaryKey := false, notNull := false,
         defaultExpr := some "'PENDING'",
         checkExpr := some "status IN ('PENDING', 'ACTIVE', 'ENDED')" },
       { name := "created_at", declaredType := "DATETIME", primaryKey := false,
         notNull := false, defaultExpr := some "CURRENT_TIMESTAMP", checkExpr := none }],
    foreignKeys := [] }

/-- The definition of the second statement of `initDb`. -/
def attendeesDef : TableDef :=
  { columns :=
      [{ name := "id", declaredType := "TEXT", primaryKey := true, notNull := false,
         defaultExpr := none, checkExpr := none },
       { name := "meeting_id", declaredType := "TEXT", primaryKey := false, notNull := true,
         defaultExpr := none, checkExpr := none },
       { name := "name", declaredType := "TEXT", primaryKey := false, notNull := true,
         defaultExpr := none, checkExpr := none },
       { name := "signature", declaredType := "TEXT", primaryKey := false, notNull := true,
         defaultExpr := none, checkExpr := none },
       { name := "ip_hash", declaredType := "TEXT", primaryKey := false, notNull := false,
         defaultExpr := none, checkExpr := none },
       { name := "timestamp", declaredType := "DATETIME", primaryKey := false,
         notNull := false, defaultExpr := some "CURRENT_TIMESTAMP", checkExpr := none }],
    foreignKeys :=
      [{ column := "meeting_id", parentTable := "meetings", parentColumn := "id" }] }

/-- How a call of `initDb` ends: it returns after `console.log('Database initialized.')`,
or a statement throws. -/
inductive InitOutcome where
  | initialized
  | threw (message : String)
deriving DecidableEq, Repr

/-- The function `initDb`: the two statements in turn, each committed on its own, so a
throw of the second leaves the effect of the first. The result is the database it
leaves and how the call ended. -/
def initDb (db : Database) : Database × InitOutcome :=
  match createTableIfNotExists db "meetings" meetingsDef with
  | .error message => (db, .threw message)
  | .ok db1 =>
    match createTableIfNotExists db1 "attendees" attendeesDef with
    | .error message => (db1, .threw message)
    | .ok db2 => (db2, .initialized)

/-- The database holds a table of this name, with this definition and these rows. -/
def HoldsTable (db : Database) (name : String) (definition : TableDef)
    (rows : List (List SqlValue)) : Prop :=
  ∃ stored, lookupObject db name = some (stored, .table definition rows)

/-! ### `src/server.js`: the port and the config route -/

/-- The value of `process.env.PORT || 3000`: the environment string when it is set and
not empty, else the number 3000. -/
inductive PortValue where
  | fromEnv (value : String)
  | number (n : Nat)
deriving DecidableEq, Repr

/-- The constant `PORT`, from the environment entry (`none`: not set). -/
def listenPort (envPort : Option String) : PortValue :=
  match envPort with
  | some value => if value = "" then .number 3000 else .fromEnv value
  | none => .number 3000

/-- What the module `server.js` holds once loaded: its constant `PORT`, which
`app.listen` receives, and the interface table `os.networkInterfaces()` answers. -/
structure ServerProcess where
  port : PortValue
  interfaces : List (String × List NetworkInterfaceInfo)
deriving DecidableEq, Repr

/-- Loading `server.js` under an environment. -/
def startServer (envPort : Option String)
    (interfaces : List (String × List NetworkInterfaceInfo)) : ServerProcess :=
  { port := listenPort envPort, interfaces := interfaces }

/-- The JSON object the config route answers. -/
structure ConfigAnswer where
  ip : String
  port : Nat
deriving DecidableEq, Repr

/-- The handler of `GET /api/config`: `res.json({ ip: getLocalIp(), port: 3000 })`. -/
def getConfig (server : ServerProcess) : ConfigAnswer :=
  { ip := getLocalIp server.interfaces, port := 3000 }

/-! ### `AdminDashboard.jsx`: the join link -/

/-- The fields of `window.location` the dashboard reads; `protocol` ends in a colon. -/
structure BrowserLocation where
  protocol : String
  hostname : String
  port : String
deriving DecidableEq, Repr

/-- The body of the config reply as the dashboard reads it: `res.data.ip`, `none` when
the field is missing or null. -/
structure ConfigData where
  ip : Option String
  port : Option Nat
deriving DecidableEq, Repr

/-- The config answer after its trip through JSON. -/
def ConfigAnswer.toData (answer : ConfigAnswer) : ConfigData :=
  { ip := some answer.ip, port := some answer.port }

/-- The state of the first render of `AdminDashboard`: `secret` is
`location.state?.secret || ''` and `serverIp` starts as `window.location.hostname`. -/
def initialDashboard (location : BrowserLocation) (routeSecret : Option String) : Dashboard :=
  { secret := routeSecret.getD "", meeting := none, attendees := [], loading := true,
    isAuthenticated := false, serverIp := location.hostname }

/-- The effect that fetches `/api/config`: the `then` branch stores a truthy ip other
than localhost, the `catch` branch only logs. -/
def configEffect (d : Dashboard) (r : Reply ConfigData) : Dashboard :=
  match r with
  | .resolved data =>
    match data.ip with
    | some ip => if ip ≠ "" ∧ ip ≠ "localhost" then { d with serverIp := ip } else d
    | none => d
  | .rejected _ => d

/-- The constant `joinLink` for the meeting `id` of the route. -/
def joinLink (location : BrowserLocation) (d : Dashboard) (id : String) : String :=
  location.protocol ++ "//" ++ d.serverIp ++ ":" ++ location.port ++ "/join/" ++ id

/-! ### Sample inputs -/

/-- An interface table with a loopback interface, an interface without entries and a
LAN interface that lists its IPv6 address first. -/
def sampleInterfaces : List (String × List NetworkInterfaceInfo) :=
  [("lo", [{ address := "127.0.0.1", family := "IPv4", internal := true }]),
   ("tun0", []),
   ("eth0", [{ address := "fe80::1", family := "IPv6", internal := false },
             { address := "192.168.1.20", family := "IPv4", internal := false }])]

/-- An interface table of a host with no LAN address. -/
def loopbackOnly : List (String × List NetworkInterfaceInfo) :=
  [("lo", [{ address := "127.0.0.1", family := "IPv4", internal := true },
           { address := "::1", family := "IPv6", internal := true }]),
   ("tun0", [])]

/-- An authenticated dashboard showing a pending meeting. -/
def sampleDashboard : Dashboard :=
  { secret := "s3cret",
    meeting := some { id := some "m1", title := some "Standup", status := some "PENDING" },
    attendees := [], loading := false, isAuthenticated := true, serverIp := "192.168.1.20" }

/-- Start clicked twice before the first reply, then End: the first Start POST
resolves, End is clicked and its POST resolves, and the second Start POST resolves
last. -/
def lateStartEvents : List DashEvent :=
  [.click .startMeeting, .click .startMeeting, .postSettles 0 (.resolved ()),
   .click .endMeeting, .postSettles 2 (.resolved ()), .postSettles 0 (.resolved ())]

/-- Start and End, each reply arriving before the next click. -/
def orderlyEvents : List DashEvent :=
  [.click .startMeeting, .postSettles 0 (.resolved ()), .fetchSettles 0 (.resolved []),
   .click .endMeeting, .postSettles 0 (.resolved ()), .fetchSettles 0 (.rejected none)]

/-- A browser with an empty local storage and a signed canvas. -/
def sampleBrowser : Browser :=
  { localStorage := [],
    canvas := { empty := false, dataURL := .ok "data:image/png;base64,iVBORw0KGgo=" },
    clock := "10:15:00", random := "k3j9x2a7" }

/-- The view after the first status poll found the meeting pending. -/
def sampleWaitingView : AttendeeView :=
  viewStep "m1" initialView sampleBrowser
    (.statusReply (.resolved { id := some "m1", title := some "Standup",
                               status := some "PENDING" }))

/-- The view of an active meeting with the name field filled in. -/
def sampleFormView : AttendeeView :=
  { meeting := some { id := some "m1", title := some "Standup", status := some "ACTIVE" },
    name := " Alice ", loading := false, submitted := false, isSubmitting := false,
    errorMsg := "", logs := [] }

/-- A server that answers every admission with 409. -/
def duplicateServer : AttendBody → PostReply :=
  fun _ => .rejected (some 409) "Request failed with status code 409"

/-- A server that cannot be reached. -/
def unreachableServer : AttendBody → PostReply :=
  fun _ => .rejected none "Network Error"

/-- An insert that names every column but created_at and gives NULL for status. -/
def nullStatusInsert : MeetingInsert :=
  { id := some (.text "m1"), title := some (.text "Standup"),
    admin_secret := some (.text "s3cret"), status := some .null, created_at := none }

/-- An insert that leaves status to its DEFAULT. -/
def defaultStatusInsert : MeetingInsert :=
  { id := some (.text "m1"), title := some (.text "Standup"),
    admin_secret := some (.text "s3cret"), status := none, created_at := none }

/-- A stored meeting with the given status. -/
def sampleMeetingRow (status : String) : MeetingRow :=
  { id := .text "m1", title := .text "Standup", admin_secret := .text "s3cret",
    status := .text status, created_at := .text "2024-05-01 09:00:00" }

/-- A store holding one active meeting and no attendee. -/
def activeStore : Store :=
  { meetings := [sampleMeetingRow "ACTIVE"], attendees := [] }

/-- A store holding one pending meeting and no attendee. -/
def pendingStore : Store :=
  { meetings := [sampleMeetingRow "PENDING"], attendees := [] }

/-- The admission of the scenario in the spec: Alice, from device dev1. -/
def aliceRequest : AttendBody :=
  { meeting_id := "m1", name := "Alice", signature := "data:image/png;base64,iVBORw0KGgo=",
    ip_hash := "dev1" }

/-- Alice's admission, as the service receives it. -/
def aliceAdmission : Admission :=
  { request := aliceRequest, newId := "a1", now := "2024-05-01 09:05:00" }

/-- The same payload sent again. -/
def aliceAgain : Admission :=
  { request := aliceRequest, newId := "a2", now := "2024-05-01 09:06:00" }

/-- A database file from an earlier run: both tables, one meeting and one attendee
stored, and an index a maintainer added. -/
def usedDatabase : Database :=
  [("meetings", .table meetingsDef
      [[.text "m1", .text "Standup", .text "s3cret", .text "ACTIVE",
        .text "2024-05-01 09:00:00"]]),
   ("attendees", .table attendeesDef
      [[.text "a1", .text "m1", .text "Alice", .text "sig", .text "dev1",
        .text "2024-05-01 09:05:00"]]),
   ("idx_attendees_meeting", .index "attendees" ["meeting_id"])]

/-- A browser that already holds a device identifier. -/
def returningBrowser : Browser :=
  { localStorage := [("device_id", "k3j9x2a7")],
    canvas := { empty := false, dataURL := .ok "data:image/png;base64,iVBORw0KGgo=" },
    clock := "10:15:00", random := "zz81q0p4" }

/-- A server that accepts every admission. -/
def acceptingServer : AttendBody → PostReply :=
  fun _ => .resolved

/-- The dashboard opened on the organiser's machine, on port 5173. -/
def localLocation : BrowserLocation :=
  { protocol := "http:", hostname := "localhost", port := "5173" }

/-- The dashboard opened from another machine of the network. -/
def lanLocation : BrowserLocation :=
  { protocol := "http:", hostname := "192.168.1.7", port := "3000" }

/-- An admission from device dev1 whose name is blank. -/
def blankAdmission : Admission :=
  { request := { meeting_id := "m1", name := "  ",
                 signature := "data:image/png;base64,iVBORw0KGgo=", ip_hash := "dev1" },
    newId := "a1", now := "2024-05-01 09:05:00" }

/-! ## Theorems -/

/-! ### getLocalIp -/

theorem scanEntries_none (entries : List NetworkInterfaceInfo)
    (h : ∀ e ∈ entries, isExternalIPv4 e = false) : scanEntries entries = none := by
  induction entries with
  | nil => rfl
  | cons e rest ih =>
    have he : isExternalIPv4 e = false := h e (List.mem_cons_self _ _)
    have hr : ∀ x ∈ rest, isExternalIPv4 x = false :=
      fun x hx => h x (List.mem_cons_of_mem _ hx)
    simp [scanEntries, he, ih hr]

theorem scanEntries_some (entries : List NetworkInterfaceInfo)
    (h : ∃ e ∈ entries, isExternalIPv4 e = true) :
    ∃ pre e post, entries = pre ++ e :: post ∧ (∀ x ∈ pre, isExternalIPv4 x = false) ∧
      isExternalIPv4 e = true ∧ scanEntries entries = some e.address := by
  induction entries with
  | nil => obtain ⟨e, he, _⟩ := h; cases he
  | cons a rest ih =>
    by_cases ha : isExternalIPv4 a = true
    · exact ⟨[], a, rest, rfl, by simp, ha, by simp [scanEntries, ha]⟩
    · have ha0 : isExternalIPv4 a = false := by simpa using ha
      obtain ⟨e, he, hq⟩ := h
      have hmem : e ∈ rest := by
        rcases List.mem_cons.mp he with h1 | h1
        · subst h1; rw [ha0] at hq; cases hq
        · exact h1
      obtain ⟨pre, e1, post, hsplit, hpre, hq1, hres⟩ := ih ⟨e, hmem, hq⟩
      refine ⟨a :: pre, e1, post, by simp [hsplit], ?_, hq1, ?_⟩
      · intro x hx
        rcases List.mem_cons.mp hx with h1 | h1
        · subst h1; exact ha0
        · exact hpre x h1
      · simp [scanEntries, ha0, hres]

theorem scanInterfaces_none (t : List (String × List NetworkInterfaceInfo))
    (h : ∀ e ∈ allEntries t, isExternalIPv4 e = false) : scanInterfaces t = none := by
  induction t with
  | nil => rfl
  | cons p rest ih =>
    obtain ⟨name, entries⟩ := p
    have h1 : ∀ e ∈ entries, isExternalIPv4 e = false :=
      fun e he => h e (by simp [allEntries, he])
    have h2 : ∀ e ∈ allEntries rest, isExternalIPv4 e = false :=
      fun e he => h e (by simp [allEntries, he])
    simp [scanInterfaces, scanEntries_none entries h1, ih h2]

theorem scanInterfaces_some (t : List (String × List NetworkInterfaceInfo))
    (h : ∃ e ∈ allEntries t, isExternalIPv4 e = true) :
    ∃ pre e post, allEntries t = pre ++ e :: post ∧
      (∀ x ∈ pre, isExternalIPv4 x = false) ∧
      isExternalIPv4 e = true ∧ scanInterfaces t = some e.address := by
  induction t with
  | nil => obtain ⟨e, he, _⟩ := h; cases he
  | cons p rest ih =>
    obtain ⟨name, entries⟩ := p
    by_cases hh : ∃ e ∈ entries, isExternalIPv4 e = true
    · obtain ⟨pre, e, post, hsplit, hpre, hq, hres⟩ := scanEntries_some entries hh
      refine ⟨pre, e, post ++ allEntries rest, by simp [allEntries, hsplit], hpre, hq, ?_⟩
      simp [scanInterfaces, hres]
    · have hnone : ∀ e ∈ entries, isExternalIPv4 e = false := by
        intro e he
        by_contra hc
        exact hh ⟨e, he, by simpa using hc⟩
      obtain ⟨e, he, hq⟩ := h
      have hmem : e ∈ allEntries rest := by
        have : e ∈ entries ++ allEntries rest := he
        rcases List.mem_append.mp this with h1 | h1
        · rw [hnone e h1] at hq; cases hq
        · exact h1
      obtain ⟨pre, e1, post, hsplit, hpre, hq1, hres⟩ := ih ⟨e, hmem, hq⟩
      refine ⟨entries ++ pre, e1, post, by simp [allEntries, hsplit], ?_, hq1, ?_⟩
      · intro x hx
        rcases List.mem_append.mp hx with h1 | h1
        · exact hnone x h1
        · exact hpre x h1
      · simp [scanInterfaces, scanEntries_none entries hnone, hres]

theorem isExternalIPv4_iff (e : NetworkInterfaceInfo) :
    isExternalIPv4 e = true ↔ e.family = "IPv4" ∧ e.internal = false := by
  simp [isExternalIPv4]

/-- C9: when the interface table has an entry with family IPv4 and internal false,
`getLocalIp` returns the address of the first such entry in enumeration order: every
entry before it fails the test, and the entry itself is IPv4 and not internal. -/
theorem getLocalIp_first_external (t : List (String × List NetworkInterfaceInfo))
    (h : ∃ e ∈ allEntries t, e.family = "IPv4" ∧ e.internal = false) :
    ∃ pre e post, allEntries t = pre ++ e :: post ∧
      (∀ x ∈ pre, ¬ (x.family = "IPv4" ∧ x.internal = false)) ∧
      e.family = "IPv4" ∧ e.internal = false ∧ getLocalIp t = e.address := by
  obtain ⟨e0, hmem, hq⟩ := h
  obtain ⟨pre, e, post, hsplit, hpre, he, hres⟩ :=
    scanInterfaces_some t ⟨e0, hmem, (isExternalIPv4_iff e0).mpr hq⟩
  refine ⟨pre, e, post, hsplit, ?_, ((isExternalIPv4_iff e).mp he).1,
    ((isExternalIPv4_iff e).mp he).2, ?_⟩
  · intro x hx hc
    have h1 := hpre x hx
    rw [(isExternalIPv4_iff x).mpr hc] at h1
    cases h1
  · simp [getLocalIp, hres]

theorem getLocalIp_first_external_witness :
    (∃ e ∈ allEntries sampleInterfaces, e.family = "IPv4" ∧ e.internal = false) ∧
    ∃ pre e post, allEntries sampleInterfaces = pre ++ e :: post ∧
      (∀ x ∈ pre, ¬ (x.family = "IPv4" ∧ x.internal = false)) ∧
      e.family = "IPv4" ∧ e.internal = false ∧ getLocalIp sampleInterfaces = e.address :=
  ⟨by decide, getLocalIp_first_external sampleInterfaces (by decide)⟩

/-- C10: when no entry of the interface table has family IPv4 and internal false (the
empty table and empty entry lists included), `getLocalIp` returns exactly the string
localhost. -/
theorem getLocalIp_fallback (t : List (String × List NetworkInterfaceInfo))
    (h : ∀ e ∈ allEntries t, ¬ (e.family = "IPv4" ∧ e.internal = false)) :
    getLocalIp t = "localhost" := by
  have h1 : ∀ e ∈ allEntries t, isExternalIPv4 e = false := by
    intro e he
    by_contra hc
    exact h e he ((isExternalIPv4_iff e).mp (by simpa using hc))
  simp [getLocalIp, scanInterfaces_none t h1]

theorem getLocalIp_fallback_witness :
    (∀ e ∈ allEntries loopbackOnly, ¬ (e.family = "IPv4" ∧ e.internal = false)) ∧
    getLocalIp loopbackOnly = "localhost" ∧ getLocalIp [] = "localhost" :=
  ⟨by decide, getLocalIp_fallback loopbackOnly (by decide),
    getLocalIp_fallback [] (by simp [allEntries])⟩

/-! ### AdminDashboard: the lifecycle controls -/

theorem fetchAttendees_meeting (d : Dashboard) (ra : Reply (List AttendeeInfo)) :
    (fetchAttendees d ra).meeting = d.meeting := by
  cases ra <;> rfl

theorem updateStatus_displayed (d : Dashboard) (newStatus : String) (rp : Reply Unit)
    (ra : Reply (List AttendeeInfo)) :
    displayedStatus (updateStatus d newStatus rp ra) = some newStatus ∨
    displayedStatus (updateStatus d newStatus rp ra) = displayedStatus d := by
  cases rp with
  | resolved u =>
    left
    simp only [updateStatus, displayedStatus, fetchAttendees_meeting]
    cases h : d.meeting <;> simp [withStatus]
  | rejected st => right; rfl

theorem mem_offered (d : Dashboard) (c : Control) (h : c ∈ offered d) :
    ∃ m, d.meeting = some m ∧ c ∈ controls m := by
  unfold offered at h
  split at h
  · cases h
  · split at h
    · cases h
    · split at h
      · rename_i m hm; exact ⟨m, hm, h⟩
      · cases h

theorem controls_request (m : Meeting) (c : Control) (newStatus : String)
    (hc : c ∈ controls m) (ha : c.onClick = .updateStatus newStatus) :
    (m.status = some "PENDING" ∧ newStatus = "ACTIVE") ∨
    (m.status = some "ACTIVE" ∧ newStatus = "ENDED") := by
  cases c with
  | startMeeting =>
    left
    simp only [Control.onClick, Action.updateStatus.injEq] at ha
    refine ⟨?_, ha.symm⟩
    by_contra hne
    simp [controls, hne] at hc
  | endMeeting =>
    right
    simp only [Control.onClick, Action.updateStatus.injEq] at ha
    refine ⟨?_, ha.symm⟩
    by_contra hne
    simp [controls, hne] at hc
  | downloadPdf => simp [Control.onClick] at ha
  | downloadCsv => simp [Control.onClick] at ha
  | refresh => simp [Control.onClick] at ha

theorem click_request_legal (s : LiveDashboard) (c : Control) (newStatus : String)
    (hc : c ∈ offered s.view) (ha : c.onClick = .updateStatus newStatus) :
    (displayedStatus s.view = some "PENDING" ∧ newStatus = "ACTIVE") ∨
    (displayedStatus s.view = some "ACTIVE" ∧ newStatus = "ENDED") := by
  obtain ⟨m, hm, hmem⟩ := mem_offered s.view c hc
  have hd : displayedStatus s.view = m.status := by simp [displayedStatus, hm]
  rw [hd]
  exact controls_request m c newStatus hmem ha

theorem liveTrace_orderly :
    (liveTrace { view := sampleDashboard, inFlight := [] } orderlyEvents).map
      (fun s => displayedStatus s.view) =
      [some "PENDING", some "PENDING", some "ACTIVE", some "ACTIVE", some "ACTIVE",
       some "ENDED", some "ENDED"] := by
  decide

/-- C1, the code at the failing input: Start is clicked twice while the first status
POST is still awaited (nothing disables the button), End is clicked after the first
reply, and the second Start POST resolves after the End POST: the displayed status
goes PENDING, ACTIVE, ENDED and then back to ACTIVE, a step the lifecycle order does
not allow. -/
theorem dashboard_late_start_reopens :
    (liveTrace { view := sampleDashboard, inFlight := [] } lateStartEvents).map
      (fun s => displayedStatus s.view) =
      [some "PENDING", some "PENDING", some "PENDING", some "ACTIVE", some "ACTIVE",
       some "ENDED", some "ACTIVE"] ∧
    ¬ Forward (some "ENDED") (some "ACTIVE") ∧
    ¬ List.Chain' Forward
      ((liveTrace { view := sampleDashboard, inFlight := [] } lateStartEvents).map
        (fun s => displayedStatus s.view)) := by
  have htrace : (liveTrace { view := sampleDashboard, inFlight := [] } lateStartEvents).map
      (fun s => displayedStatus s.view) =
      [some "PENDING", some "PENDING", some "PENDING", some "ACTIVE", some "ACTIVE",
       some "ENDED", some "ACTIVE"] := by decide
  have hback : ¬ Forward (some "ENDED") (some "ACTIVE") := by decide
  refine ⟨htrace, hback, ?_⟩
  rw [htrace]
  intro h
  simp only [List.chain'_cons] at h
  exact hback h.2.2.2.2.2.1

/-- C4, the code at the failing input: when the meeting fetch succeeds and the
attendees fetch is answered 403, `verifyAndFetch` ends with isAuthenticated true and
the secret as it was, because `fetchAttendees` absorbs the rejection. -/
theorem verifyAndFetch_accepts_rejected_secret (d : Dashboard) (m : Meeting) :
    (verifyAndFetch d (.resolved m) (.rejected (some 403))).isAuthenticated = true ∧
    (verifyAndFetch d (.resolved m) (.rejected (some 403))).secret = d.secret ∧
    (verifyAndFetch d (.resolved m) (.rejected (some 403))).loading = false := by
  simp [verifyAndFetch, fetchAttendees]

/-! ### AttendeeView -/

theorem addLog_meeting (b : Browser) (v : AttendeeView) (msg : String) :
    (addLog b v msg).meeting = v.meeting ∧ (addLog b v msg).loading = v.loading ∧
    (addLog b v msg).submitted = v.submitted ∧ (addLog b v msg).name = v.name ∧
    (addLog b v msg).errorMsg = v.errorMsg ∧
    (addLog b v msg).isSubmitting = v.isSubmitting :=
  ⟨rfl, rfl, rfl, rfl, rfl, rfl⟩

theorem onPostRejected_frame (b : Browser) (v : AttendeeView) (status : Option Nat)
    (message : String) :
    (onPostRejected b v status message).meeting = v.meeting ∧
    (onPostRejected b v status message).loading = v.loading := by
  unfold onPostRejected
  cases status with
  | none => simp [addLog]
  | some code => by_cases h : code = 409 <;> simp [addLog, h]

theorem sendAttendance_resolved (id : String) (v : AttendeeView) (b : Browser)
    (signature : String) (server : AttendBody → PostReply)
    (h : server (attendBody id v b signature) = .resolved) :
    sendAttendance id v b signature server =
      { view := { addLog b (addLog b v "Sending POST to /api/attend...")
                    "Success response received" with submitted := true },
        localStorage := setItem (deviceIdentity b).2 ("attended_" ++ id) "true",
        sent := some (attendBody id v b signature) } := by
  unfold sendAttendance
  simp only [h]

theorem sendAttendance_rejected (id : String) (v : AttendeeView) (b : Browser)
    (signature : String) (server : AttendBody → PostReply) (status : Option Nat)
    (message : String)
    (h : server (attendBody id v b signature) = .rejected status message) :
    sendAttendance id v b signature server =
      { view := onPostRejected b (addLog b v "Sending POST to /api/attend...") status message,
        localStorage := (deviceIdentity b).2,
        sent := some (attendBody id v b signature) } := by
  unfold sendAttendance
  simp only [h]

theorem sendAttendance_frame (id : String) (v : AttendeeView) (b : Browser)
    (signature : String) (server : AttendBody → PostReply) :
    (sendAttendance id v b signature server).view.meeting = v.meeting ∧
    (sendAttendance id v b signature server).view.loading = v.loading := by
  cases h : server (attendBody id v b signature) with
  | resolved =>
    rw [sendAttendance_resolved id v b signature server h]
    exact ⟨rfl, rfl⟩
  | rejected status message =>
    rw [sendAttendance_rejected id v b signature server status message h]
    exact onPostRejected_frame b _ status message

theorem handleSubmit_name_empty (id : String) (v : AttendeeView) (b : Browser)
    (server : AttendBody → PostReply) (h : jsTrim v.name = "") :
    handleSubmit id v b server =
      { view := { addLog b (addLog b { v with errorMsg := "" } "Submit clicked")
                    "Validation failed: No name" with
                  errorMsg := "Please enter your name" },
        localStorage := b.localStorage, sent := none } := by
  unfold handleSubmit
  rw [if_pos h]

theorem handleSubmit_canvas_empty (id : String) (v : AttendeeView) (b : Browser)
    (server : AttendBody → PostReply) (h : jsTrim v.name ≠ "")
    (hc : b.canvas.empty = true) :
    handleSubmit id v b server =
      { view := { addLog b (addLog b { v with errorMsg := "" } "Submit clicked")
                    "Validation failed: No signature" with
                  errorMsg := "Please sign your name" },
        localStorage := b.localStorage, sent := none } := by
  unfold handleSubmit
  rw [if_neg h, if_pos hc]

theorem handleSubmit_signature_error (id : String) (v : AttendeeView) (b : Browser)
    (server : AttendBody → PostReply) (h : jsTrim v.name ≠ "")
    (hc : b.canvas.empty = false) (message : String)
    (hs : b.canvas.dataURL = .error message) :
    handleSubmit id v b server =
      { view := { addLog b (addLog b (addLog b
          { addLog b { v with errorMsg := "" } "Submit clicked" with isSubmitting := true }
          "Generating signature...") "Canvas retrieved (Raw)")
          ("SIG ERROR: " ++ message) with isSubmitting := false },
        localStorage := b.localStorage, sent := none } := by
  unfold handleSubmit
  rw [if_neg h, if_neg (by simp [hc])]
  simp only [hs]

theorem handleSubmit_sends (id : String) (v : AttendeeView) (b : Browser)
    (server : AttendBody → PostReply) (h : jsTrim v.name ≠ "")
    (hc : b.canvas.empty = false) (signature : String)
    (hs : b.canvas.dataURL = .ok signature) :
    handleSubmit id v b server =
      sendAttendance id
        (addLog b (addLog b (addLog b
          { addLog b { v with errorMsg := "" } "Submit clicked" with isSubmitting := true }
          "Generating signature...") "Canvas retrieved (Raw)")
          ("Signature generated (" ++ toString signature.length ++ " chars)"))
        b signature server := by
  unfold handleSubmit
  rw [if_neg h, if_neg (by simp [hc])]
  simp only [hs]

theorem handleSubmit_frame (id : String) (v : AttendeeView) (b : Browser)
    (server : AttendBody → PostReply) :
    (handleSubmit id v b server).view.meeting = v.meeting ∧
    (handleSubmit id v b server).view.loading = v.loading := by
  by_cases h : jsTrim v.name = ""
  · rw [handleSubmit_name_empty id v b server h]; exact ⟨rfl, rfl⟩
  · cases hc : b.canvas.empty with
    | true => rw [handleSubmit_canvas_empty id v b server h hc]; exact ⟨rfl, rfl⟩
    | false =>
      cases hs : b.canvas.dataURL with
      | error message =>
        rw [handleSubmit_signature_error id v b server h hc message hs]; exact ⟨rfl, rfl⟩
      | ok signature =>
        rw [handleSubmit_sends id v b server h hc signature hs]
        exact sendAttendance_frame id _ b signature server

theorem viewStep_loading (id : String) (v : AttendeeView) (b : Browser) (e : ViewEvent)
    (ih : v.loading = true → v.meeting = none) :
    (viewStep id v b e).loading = true → (viewStep id v b e).meeting = none := by
  cases e with
  | mounted =>
    simp only [viewStep, mountEffect]
    split
    · split
      · exact ih
      · exact ih
    · exact ih
  | statusReply r => cases r <;> simp [viewStep, fetchStatus]
  | nameChange value =>
    simp only [viewStep]
    split
    · exact ih
    · exact ih
  | clearSignature =>
    simp only [viewStep, clearSignature]
    split
    · exact ih
    · exact ih
  | submit server =>
    simp only [viewStep]
    split
    · rw [(handleSubmit_frame id v b server).1, (handleSubmit_frame id v b server).2]
      exact ih
    · exact ih

theorem view_loading_invariant (id : String) (v : AttendeeView) (h : ViewReachable id v) :
    v.loading = true → v.meeting = none := by
  induction h with
  | initial => intro _; rfl
  | step v b e _ ih => exact viewStep_loading id v b e ih

theorem onPostRejected_conflict (b : Browser) (v : AttendeeView) (message : String) :
    (onPostRejected b v (some 409) message).submitted = true ∧
    (onPostRejected b v (some 409) message).errorMsg = v.errorMsg := by
  simp [onPostRejected, addLog]

theorem onPostRejected_failure (b : Browser) (v : AttendeeView) (status : Option Nat)
    (message : String) (h : status ≠ some 409) :
    (onPostRejected b v status message).submitted = v.submitted ∧
    (onPostRejected b v status message).errorMsg = "Failed: " ++ message ∧
    (onPostRejected b v status message).isSubmitting = false := by
  unfold onPostRejected
  cases status with
  | none => simp [addLog]
  | some code => simp [addLog, h]

theorem sendAttendance_rejection (id : String) (v : AttendeeView) (b : Browser)
    (signature : String) (server : AttendBody → PostReply) (body : AttendBody)
    (status : Option Nat) (message : String)
    (hsent : (sendAttendance id v b signature server).sent = some body)
    (hreply : server body = .rejected status message) :
    (status = some 409 →
      (sendAttendance id v b signature server).view.submitted = true ∧
      (sendAttendance id v b signature server).view.errorMsg = v.errorMsg) ∧
    (status ≠ some 409 →
      (sendAttendance id v b signature server).view.submitted = v.submitted ∧
      (sendAttendance id v b signature server).view.errorMsg = "Failed: " ++ message ∧
      (sendAttendance id v b signature server).view.isSubmitting = false) := by
  cases h : server (attendBody id v b signature) with
  | resolved =>
    rw [sendAttendance_resolved id v b signature server h] at hsent
    simp only [Option.some.injEq] at hsent
    rw [← hsent, h] at hreply
    cases hreply
  | rejected st msg =>
    rw [sendAttendance_rejected id v b signature server st msg h] at hsent ⊢
    simp only [Option.some.injEq] at hsent
    rw [← hsent, h] at hreply
    simp only [PostReply.rejected.injEq] at hreply
    obtain ⟨h1, h2⟩ := hreply
    subst h1 h2
    constructor
    · intro h409
      subst h409
      exact onPostRejected_conflict b _ _
    · intro hne
      exact onPostRejected_failure b _ _ _ hne

/-- C5: in every AttendeeView state whose loaded meeting, if any, has status PENDING,
ACTIVE or ENDED, the form is rendered exactly when loading is false, a meeting was
loaded, submitted is false and the status is ACTIVE; under status PENDING or ENDED no
form is rendered, and in every state the view can reach a meeting that is not
submitted shows the waiting notice under PENDING and the closed notice under ENDED. -/
theorem attendee_form_iff_active (id : String) (v : AttendeeView)
    (hdom : ∀ m, v.meeting = some m →
      m.status = some "PENDING" ∨ m.status = some "ACTIVE" ∨ m.status = some "ENDED") :
    (render v = .form ↔
      v.loading = false ∧ v.submitted = false ∧
        ∃ m, v.meeting = some m ∧ m.status = some "ACTIVE") ∧
    (∀ m, v.meeting = some m → m.status = some "PENDING" ∨ m.status = some "ENDED" →
      render v ≠ .form) ∧
    (ViewReachable id v → ∀ m, v.meeting = some m → v.submitted = false →
      (m.status = some "PENDING" → render v = .waiting) ∧
      (m.status = some "ENDED" → render v = .closed)) := by
  have hform : render v = .form ↔
      v.loading = false ∧ v.submitted = false ∧
        ∃ m, v.meeting = some m ∧ m.status = some "ACTIVE" := by
    unfold render
    cases hl : v.loading with
    | true => simp
    | false =>
      cases hm : v.meeting with
      | none => simp
      | some m =>
        cases hs : v.submitted with
        | true => simp
        | false =>
          rcases hdom m hm with h | h | h <;> simp [h]
  refine ⟨hform, ?_, ?_⟩
  · intro m hm hst hf
    obtain ⟨_, _, m2, hm2, hact⟩ := hform.mp hf
    rw [hm] at hm2
    cases hm2
    rcases hst with h | h <;> rw [h] at hact <;> exact absurd hact (by decide)
  · intro hr m hm hs
    have hl : v.loading = false := by
      cases hload : v.loading with
      | false => rfl
      | true =>
        have := view_loading_invariant id v hr hload
        rw [hm] at this
        cases this
    constructor
    · intro h; simp [render, hl, hm, hs, h]
    · intro h; simp [render, hl, hm, hs, h]

theorem attendee_form_iff_active_witness :
    render sampleWaitingView = .waiting ∧ render sampleWaitingView ≠ .form ∧
    (render sampleFormView = .form ↔
      sampleFormView.loading = false ∧ sampleFormView.submitted = false ∧
        ∃ m, sampleFormView.meeting = some m ∧ m.status = some "ACTIVE") :=
  have hdom : ∀ m, sampleWaitingView.meeting = some m →
      m.status = some "PENDING" ∨ m.status = some "ACTIVE" ∨ m.status = some "ENDED" :=
    fun m hm => by cases hm; exact Or.inl rfl
  have hdom2 : ∀ m, sampleFormView.meeting = some m →
      m.status = some "PENDING" ∨ m.status = some "ACTIVE" ∨ m.status = some "ENDED" :=
    fun m hm => by cases hm; exact Or.inr (Or.inl rfl)
  ⟨((attendee_form_iff_active "m1" sampleWaitingView hdom).2.2
      (ViewReachable.step initialView sampleBrowser _ ViewReachable.initial)
      _ rfl rfl).1 rfl,
    (attendee_form_iff_active "m1" sampleWaitingView hdom).2.1 _ rfl (Or.inl rfl),
    (attendee_form_iff_active "m1" sampleFormView hdom2).1⟩

/-- C6: a name that is empty after trimming makes `handleSubmit` send no POST, leave
submitted and the local storage as they were and set the message Please enter your
name; an empty canvas does the same with a non-empty message, which is Please sign
your name when the name passed its check; and a POST is sent only when the trimmed
name is non-empty and the canvas is not empty. -/
theorem handleSubmit_validates (id : String) (v : AttendeeView) (b : Browser)
    (server : AttendBody → PostReply) :
    (jsTrim v.name = "" →
      (handleSubmit id v b server).sent = none ∧
      (handleSubmit id v b server).view.submitted = v.submitted ∧
      (handleSubmit id v b server).localStorage = b.localStorage ∧
      (handleSubmit id v b server).view.errorMsg = "Please enter your name") ∧
    (b.canvas.empty = true →
      (handleSubmit id v b server).sent = none ∧
      (handleSubmit id v b server).view.submitted = v.submitted ∧
      (handleSubmit id v b server).localStorage = b.localStorage ∧
      (handleSubmit id v b server).view.errorMsg ≠ "" ∧
      (jsTrim v.name ≠ "" →
        (handleSubmit id v b server).view.errorMsg = "Please sign your name")) ∧
    ((handleSubmit id v b server).sent ≠ none →
      jsTrim v.name ≠ "" ∧ b.canvas.empty = false) := by
  refine ⟨?_, ?_, ?_⟩
  · intro h
    rw [handleSubmit_name_empty id v b server h]
    exact ⟨rfl, rfl, rfl, rfl⟩
  · intro hc
    by_cases h : jsTrim v.name = ""
    · rw [handleSubmit_name_empty id v b server h]
      exact ⟨rfl, rfl, rfl, (by decide : "Please enter your name" ≠ ""),
        fun hne => absurd h hne⟩
    · rw [handleSubmit_canvas_empty id v b server h hc]
      exact ⟨rfl, rfl, rfl, (by decide : "Please sign your name" ≠ ""), fun _ => rfl⟩
  · intro hsent
    by_cases h : jsTrim v.name = ""
    · rw [handleSubmit_name_empty id v b server h] at hsent
      exact absurd rfl hsent
    · refine ⟨h, ?_⟩
      cases hc : b.canvas.empty with
      | false => rfl
      | true =>
        rw [handleSubmit_canvas_empty id v b server h hc] at hsent
        exact absurd rfl hsent

theorem handleSubmit_validates_witness :
    jsTrim ({ sampleFormView with name := " \t " }).name = "" ∧
    (handleSubmit "m1" { sampleFormView with name := " \t " } sampleBrowser
      duplicateServer).sent = none ∧
    (handleSubmit "m1" { sampleFormView with name := " \t " } sampleBrowser
      duplicateServer).view.errorMsg = "Please enter your name" :=
  have h : jsTrim ({ sampleFormView with name := " \t " }).name = "" := by decide
  ⟨h,
    ((handleSubmit_validates "m1" { sampleFormView with name := " \t " } sampleBrowser
      duplicateServer).1 h).1,
    ((handleSubmit_validates "m1" { sampleFormView with name := " \t " } sampleBrowser
      duplicateServer).1 h).2.2.2⟩

/-- C7: when the POST that `handleSubmit` sent is rejected with HTTP status 409, the
view ends with submitted true and an empty error message; when it is rejected with any
other status, or with no response, submitted is as it was, the error message is Failed
followed by the error's message, and isSubmitting is false. -/
theorem handleSubmit_rejection (id : String) (v : AttendeeView) (b : Browser)
    (server : AttendBody → PostReply) (body : AttendBody) (status : Option Nat)
    (message : String)
    (hsent : (handleSubmit id v b server).sent = some body)
    (hreply : server body = .rejected status message) :
    (status = some 409 →
      (handleSubmit id v b server).view.submitted = true ∧
      (handleSubmit id v b server).view.errorMsg = "") ∧
    (status ≠ some 409 →
      (handleSubmit id v b server).view.submitted = v.submitted ∧
      (handleSubmit id v b server).view.errorMsg = "Failed: " ++ message ∧
      (handleSubmit id v b server).view.isSubmitting = false) := by
  by_cases h : jsTrim v.name = ""
  · rw [handleSubmit_name_empty id v b server h] at hsent
    cases hsent
  · cases hc : b.canvas.empty with
    | true =>
      rw [handleSubmit_canvas_empty id v b server h hc] at hsent
      cases hsent
    | false =>
      cases hs : b.canvas.dataURL with
      | error msg =>
        rw [handleSubmit_signature_error id v b server h hc msg hs] at hsent
        cases hsent
      | ok signature =>
        rw [handleSubmit_sends id v b server h hc signature hs] at hsent ⊢
        exact sendAttendance_rejection id _ b signature server body status message
          hsent hreply

theorem handleSubmit_rejection_witness :
    (handleSubmit "m1" sampleFormView sampleBrowser duplicateServer).view.submitted = true ∧
    (handleSubmit "m1" sampleFormView sampleBrowser duplicateServer).view.errorMsg = "" ∧
    (handleSubmit "m1" sampleFormView sampleBrowser unreachableServer).view.submitted
      = false ∧
    (handleSubmit "m1" sampleFormView sampleBrowser unreachableServer).view.errorMsg
      = "Failed: Network Error" ∧
    (handleSubmit "m1" sampleFormView sampleBrowser unreachableServer).view.isSubmitting
      = false :=
  have h1 := (handleSubmit_rejection "m1" sampleFormView sampleBrowser duplicateServer
    { meeting_id := "m1", name := " Alice ",
      signature := "data:image/png;base64,iVBORw0KGgo=", ip_hash := "k3j9x2a7" }
    (some 409) "Request failed with status code 409" (by decide) rfl).1 rfl
  have h2 := (handleSubmit_rejection "m1" sampleFormView sampleBrowser unreachableServer
    { meeting_id := "m1", name := " Alice ",
      signature := "data:image/png;base64,iVBORw0KGgo=", ip_hash := "k3j9x2a7" }
    none "Network Error" (by decide) rfl).2 (by decide)
  ⟨h1.1, h1.2, h2.1, h2.2.1, h2.2.2⟩

/-! ### The schema -/

theorem statusCheck_iff (status : SqlValue) :
    statusCheck status = true ↔
      status = .null ∨ status = .text "PENDING" ∨ status = .text "ACTIVE" ∨
        status = .text "ENDED" := by
  cases status with
  | null => simp [statusCheck, checkHolds, sqlIn, statusDomain]
  | integer n => simp [statusCheck, checkHolds, sqlIn, statusDomain]
  | blob bytes => simp [statusCheck, checkHolds, sqlIn, statusDomain]
  | text s =>
    by_cases h1 : s = "PENDING"
    · simp [statusCheck, checkHolds, sqlIn, statusDomain, h1]
    · by_cases h2 : s = "ACTIVE"
      · simp [statusCheck, checkHolds, sqlIn, statusDomain, h2]
      · by_cases h3 : s = "ENDED"
        · simp [statusCheck, checkHolds, sqlIn, statusDomain, h3]
        · simp [statusCheck, checkHolds, sqlIn, statusDomain, h1, h2, h3]

theorem insertMeeting_stored (numeric : SqlValue → SqlValue) (table : List MeetingRow)
    (ins : MeetingInsert) (now : String) (table1 : List MeetingRow)
    (h : insertMeeting numeric table ins now = .ok table1) :
    table1 = table ++ [proposedMeeting numeric ins now] ∧
    statusCheck (proposedMeeting numeric ins now).status = true := by
  unfold insertMeeting at h
  simp only [] at h
  split at h
  · cases h
  · split at h
    · cases h
    · split at h
      · cases h
      · rename_i hcheck
        split at h
        · cases h
        · simp only [Except.ok.injEq] at h
          exact ⟨h.symm, by simpa using hcheck⟩

theorem insertMeeting_status (numeric : SqlValue → SqlValue) (table : List MeetingRow)
    (ins : MeetingInsert) (now : String) (table1 : List MeetingRow)
    (h : insertMeeting numeric table ins now = .ok table1) :
    (proposedMeeting numeric ins now).status = .null ∨
    (proposedMeeting numeric ins now).status = .text "PENDING" ∨
    (proposedMeeting numeric ins now).status = .text "ACTIVE" ∨
    (proposedMeeting numeric ins now).status = .text "ENDED" :=
  (statusCheck_iff _).mp (insertMeeting_stored numeric table ins now table1 h).2

/-- C3, the schema at the failing input: an INSERT that gives NULL for status, and an
UPDATE that sets status to NULL, are both accepted, and the stored status is NULL,
which is none of PENDING, ACTIVE, ENDED; an INSERT that names no status stores
PENDING. This holds whatever conversion the engine applies to created_at. -/
theorem meetings_accepts_null_status (numeric : SqlValue → SqlValue) :
    insertMeeting numeric [] nullStatusInsert "2024-05-01 09:00:00" =
      .ok [{ id := .text "m1", title := .text "Standup", admin_secret := .text "s3cret",
             status := .null, created_at := .text "2024-05-01 09:00:00" }] ∧
    updateMeetingStatus [sampleMeetingRow "PENDING"] (.text "m1") .null =
      .ok [{ id := .text "m1", title := .text "Standup", admin_secret := .text "s3cret",
             status := .null, created_at := .text "2024-05-01 09:00:00" }] ∧
    SqlValue.null ∉ statusDomain ∧
    insertMeeting numeric [] defaultStatusInsert "2024-05-01 09:00:00" =
      .ok [sampleMeetingRow "PENDING"] ∧
    updateMeetingStatus [sampleMeetingRow "PENDING"] (.text "m1") (.text "DONE") =
      .error (.check "status") :=
  ⟨rfl, rfl, by decide, rfl, rfl⟩

/-! ### Admission -/

theorem sqlEq_text (a : SqlValue) (s : String) :
    sqlEq a (.text s) = some true ↔ a = .text s := by
  cases a <;> simp [sqlEq]

theorem findMeeting_some (st : Store) (meeting_id : String) (m : MeetingRow)
    (h : findMeeting st meeting_id = some m) :
    m ∈ st.meetings ∧ m.id = .text meeting_id := by
  unfold findMeeting at h
  exact ⟨List.mem_of_find?_eq_some h, by simpa using List.find?_some h⟩

theorem insertAttendee_text (st : Store) (newId mid name signature ip now : String)
    (hfresh : ∀ r ∈ st.attendees, r.id ≠ .text newId)
    (hparent : ∃ m ∈ st.meetings, m.id = .text mid) :
    insertAttendee st (.text newId) (.text mid) (.text name) (.text signature) (.text ip) now =
      .ok { st with attendees := st.attendees ++
        [{ id := .text newId, meeting_id := .text mid, name := .text name,
           signature := .text signature, ip_hash := .text ip, timestamp := .text now }] } := by
  have h1 : st.attendees.any (fun r => sqlEq r.id (.text newId) = some true) = false := by
    rw [List.any_eq_false]
    intro r hr
    simpa [sqlEq_text] using hfresh r hr
  have h2 : st.meetings.any (fun m => sqlEq m.id (.text mid) = some true) = true := by
    rw [List.any_eq_true]
    obtain ⟨m, hm, hid⟩ := hparent
    exact ⟨m, hm, by simpa [sqlEq_text] using hid⟩
  unfold insertAttendee
  simp [textAffinity, h1, h2]

theorem recordAttendance_store (st : Store) (req : AttendBody) (newId now : String) :
    (recordAttendance st req newId now).2 = st ∨
    (rowsFor st.attendees (.text req.meeting_id) (.text req.ip_hash) = [] ∧
      (∃ m, findMeeting st req.meeting_id = some m ∧ m.status = .text "ACTIVE") ∧
      ∃ row : AttendeeRow, row.meeting_id = .text req.meeting_id ∧
        row.ip_hash = .text req.ip_hash ∧
        (recordAttendance st req newId now).2 =
          { st with attendees := st.attendees ++ [row] }) := by
  unfold recordAttendance
  cases hf : findMeeting st req.meeting_id with
  | none => left; rfl
  | some m =>
    simp only []
    by_cases hs : m.status ≠ .text "ACTIVE"
    · left; rw [if_pos hs]
    · rw [if_neg hs]
      by_cases hd : rowsFor st.attendees (.text req.meeting_id) (.text req.ip_hash) ≠ []
      · left; rw [if_pos hd]
      · rw [if_neg hd]
        by_cases hv : jsTrim req.name = "" ∨ req.signature = ""
        · left; rw [if_pos hv]
        · rw [if_neg hv]
          cases hi : insertAttendee st (.text newId) (.text req.meeting_id) (.text req.name)
              (.text req.signature) (.text req.ip_hash) now with
          | error e => left; rfl
          | ok st1 =>
            right
            refine ⟨by simpa using hd, ⟨m, rfl, by simpa using hs⟩, ?_⟩
            unfold insertAttendee at hi
            simp only [textAffinity] at hi
            split at hi
            · cases hi
            · split at hi
              · cases hi
              · split at hi
                · cases hi
                · split at hi
                  · cases hi
                  · split at hi
                    · cases hi
                    · simp only [Except.ok.injEq] at hi
                      exact ⟨_, rfl, rfl, hi.symm⟩

theorem rowsFor_append (rows : List AttendeeRow) (row : AttendeeRow)
    (meeting_id ip_hash : SqlValue) :
    rowsFor (rows ++ [row]) meeting_id ip_hash =
      rowsFor rows meeting_id ip_hash ++
        (if row.meeting_id = meeting_id ∧ row.ip_hash = ip_hash then [row] else []) := by
  unfold rowsFor
  rw [List.filter_append]
  by_cases h : row.meeting_id = meeting_id ∧ row.ip_hash = ip_hash
  · simp [h, List.filter_cons]
  · rw [if_neg h]
    have : (decide (row.meeting_id = meeting_id) && decide (row.ip_hash = ip_hash)) = false := by
      simpa using h
    simp [List.filter_cons, this]

theorem recordAttendance_pairUnique (st : Store) (req : AttendBody) (newId now : String)
    (h : PairUnique st.attendees) :
    PairUnique (recordAttendance st req newId now).2.attendees := by
  rcases recordAttendance_store st req newId now with h1 | ⟨hnone, _, row, hm, hi, h1⟩
  · rw [h1]; exact h
  · rw [h1]
    intro a c
    simp only [rowsFor_append]
    by_cases hq : row.meeting_id = a ∧ row.ip_hash = c
    · rw [if_pos hq]
      rw [← hq.1, ← hq.2, hm, hi, hnone]
      simp
    · rw [if_neg hq]
      simpa using h a c

theorem recordAttendance_conflict (st : Store) (req : AttendBody) (newId now : String)
    (m : MeetingRow) (hm : findMeeting st req.meeting_id = some m)
    (hs : m.status = .text "ACTIVE")
    (hd : rowsFor st.attendees (.text req.meeting_id) (.text req.ip_hash) ≠ []) :
    recordAttendance st req newId now = (.conflict, st) := by
  unfold recordAttendance
  rw [hm]
  simp only []
  rw [if_neg (by simp [hs]), if_pos hd]

theorem recordAttendance_created (st : Store) (req : AttendBody) (newId now : String)
    (m : MeetingRow) (hm : findMeeting st req.meeting_id = some m)
    (hs : m.status = .text "ACTIVE")
    (hd : rowsFor st.attendees (.text req.meeting_id) (.text req.ip_hash) = [])
    (hv : jsTrim req.name ≠ "" ∧ req.signature ≠ "")
    (hfresh : ∀ r ∈ st.attendees, r.id ≠ .text newId) :
    recordAttendance st req newId now =
      (.created, { st with attendees := st.attendees ++
        [{ id := .text newId, meeting_id := .text req.meeting_id, name := .text req.name,
           signature := .text req.signature, ip_hash := .text req.ip_hash,
           timestamp := .text now }] }) := by
  have hp := findMeeting_some st req.meeting_id m hm
  unfold recordAttendance
  rw [hm]
  simp only []
  rw [if_neg (by simp [hs]), if_neg (by simp [hd]), if_neg (by simp [hv.1, hv.2]),
    insertAttendee_text st newId req.meeting_id req.name req.signature req.ip_hash now
      hfresh ⟨m, hp.1, hp.2⟩]

/-- The table `attendees` has no uniqueness constraint on meeting_id and ip_hash: two
inserts that differ in the row identifier only are both accepted. -/
theorem insertAttendee_same_pair :
    (insertAttendee activeStore (.text "a1") (.text "m1") (.text "Alice") (.text "sig")
      (.text "dev1") "2024-05-01 09:05:00").bind
      (fun st => insertAttendee st (.text "a2") (.text "m1") (.text "Alice") (.text "sig")
        (.text "dev1") "2024-05-01 09:06:00") =
    .ok { meetings := [sampleMeetingRow "ACTIVE"],
          attendees :=
            [{ id := .text "a1", meeting_id := .text "m1", name := .text "Alice",
               signature := .text "sig", ip_hash := .text "dev1",
               timestamp := .text "2024-05-01 09:05:00" },
             { id := .text "a2", meeting_id := .text "m1", name := .text "Alice",
               signature := .text "sig", ip_hash := .text "dev1",
               timestamp := .text "2024-05-01 09:06:00" }] } :=
  rfl

theorem recordAttendance_check_insert (st : Store) (req : AttendBody)
    (newId now : String) :
    recordAttendance st req newId now =
      match admissionCheck st req with
      | some outcome => (outcome, st)
      | none => admissionInsert st req newId now := by
  unfold recordAttendance admissionCheck admissionInsert
  cases findMeeting st req.meeting_id with
  | none => rfl
  | some m =>
    simp only []
    by_cases hs : m.status ≠ .text "ACTIVE"
    · rw [if_pos hs, if_pos hs]
    · rw [if_neg hs, if_neg hs]
      by_cases hd : rowsFor st.attendees (.text req.meeting_id) (.text req.ip_hash) ≠ []
      · rw [if_pos hd, if_pos hd]
      · rw [if_neg hd, if_neg hd]
        by_cases hv : jsTrim req.name = "" ∨ req.signature = ""
        · rw [if_pos hv, if_pos hv]
        · rw [if_neg hv, if_neg hv]

/-- C2 as stated fails. On a store with one ACTIVE meeting and no attendee: two
admissions with the same meeting_id and ip_hash and a blank name, handled one after
the other, leave no row for the pair; and two valid admissions with the same pair whose
checks both read the store before either insert leave two rows for the pair, the
table `attendees` having no uniqueness constraint on meeting_id and ip_hash. -/
theorem admission_pair_counterexample :
    findMeeting activeStore "m1" = some (sampleMeetingRow "ACTIVE") ∧
    (rowsFor (recordAttendance (recordAttendance activeStore blankAdmission.request
        blankAdmission.newId blankAdmission.now).2
        blankAdmission.request "a2" "2024-05-01 09:06:00").2.attendees
      (.text "m1") (.text "dev1")).length = 0 ∧
    admissionCheck activeStore aliceAdmission.request = none ∧
    admissionCheck activeStore aliceAgain.request = none ∧
    (rowsFor (admissionInsert (admissionInsert activeStore aliceAdmission.request
        aliceAdmission.newId aliceAdmission.now).2
        aliceAgain.request aliceAgain.newId aliceAgain.now).2.attendees
      (.text "m1") (.text "dev1")).length = 2 ∧
    ¬ PairUnique (admissionInsert (admissionInsert activeStore aliceAdmission.request
        aliceAdmission.newId aliceAdmission.now).2
        aliceAgain.request aliceAgain.newId aliceAgain.now).2.attendees := by
  have h2 : (rowsFor (admissionInsert (admissionInsert activeStore aliceAdmission.request
        aliceAdmission.newId aliceAdmission.now).2
        aliceAgain.request aliceAgain.newId aliceAgain.now).2.attendees
      (.text "m1") (.text "dev1")).length = 2 := by decide
  refine ⟨by decide, by decide, by decide, by decide, h2, ?_⟩
  intro hu
  have h1 := hu (.text "m1") (.text "dev1")
  rw [h2] at h1
  exact absurd h1 (by decide)

/-- C2 as amended: for a meeting in status ACTIVE and a store holding at most one row
for the pair, when an admission with a non-blank name, a non-empty signature and a
fresh row identifier is handled and then a second admission with the same meeting_id
and ip_hash is handled on the store the first one left, exactly one attendee row is
persisted for the pair and the second call is answered as a conflict; and if no two
rows of the store shared meeting_id and ip_hash before the two calls, none do after. -/
theorem admission_serial_pair_once (st : Store) (a1 a2 : Admission) (m : MeetingRow)
    (hm : findMeeting st a1.request.meeting_id = some m)
    (hs : m.status = .text "ACTIVE")
    (hmid : a2.request.meeting_id = a1.request.meeting_id)
    (hip : a2.request.ip_hash = a1.request.ip_hash)
    (hname : jsTrim a1.request.name ≠ "") (hsig : a1.request.signature ≠ "")
    (hfresh : ∀ r ∈ st.attendees, r.id ≠ .text a1.newId)
    (hone : (rowsFor st.attendees (.text a1.request.meeting_id)
      (.text a1.request.ip_hash)).length ≤ 1) :
    (rowsFor (recordAttendance (recordAttendance st a1.request a1.newId a1.now).2
        a2.request a2.newId a2.now).2.attendees
      (.text a1.request.meeting_id) (.text a1.request.ip_hash)).length = 1 ∧
    (recordAttendance (recordAttendance st a1.request a1.newId a1.now).2
        a2.request a2.newId a2.now).1 = .conflict ∧
    (PairUnique st.attendees →
      PairUnique (recordAttendance (recordAttendance st a1.request a1.newId a1.now).2
        a2.request a2.newId a2.now).2.attendees) := by
  have hpres : PairUnique st.attendees →
      PairUnique (recordAttendance (recordAttendance st a1.request a1.newId a1.now).2
        a2.request a2.newId a2.now).2.attendees := fun hu =>
    recordAttendance_pairUnique _ a2.request a2.newId a2.now
      (recordAttendance_pairUnique st a1.request a1.newId a1.now hu)
  refine ⟨?_, ?_, hpres⟩
  all_goals
    by_cases hd : rowsFor st.attendees (.text a1.request.meeting_id)
        (.text a1.request.ip_hash) = []
    · rw [recordAttendance_created st a1.request a1.newId a1.now m hm hs hd ⟨hname, hsig⟩
        hfresh]
      simp only []
      have hrows : rowsFor (st.attendees ++
          [{ id := .text a1.newId, meeting_id := .text a1.request.meeting_id,
             name := .text a1.request.name, signature := .text a1.request.signature,
             ip_hash := .text a1.request.ip_hash, timestamp := .text a1.now }])
          (.text a1.request.meeting_id) (.text a1.request.ip_hash) =
          [{ id := .text a1.newId, meeting_id := .text a1.request.meeting_id,
             name := .text a1.request.name, signature := .text a1.request.signature,
             ip_hash := .text a1.request.ip_hash, timestamp := .text a1.now }] := by
        rw [rowsFor_append, hd]
        simp
      have hm2 : findMeeting { st with attendees := st.attendees ++
          [{ id := .text a1.newId, meeting_id := .text a1.request.meeting_id,
             name := .text a1.request.name, signature := .text a1.request.signature,
             ip_hash := .text a1.request.ip_hash, timestamp := .text a1.now }] }
          a2.request.meeting_id = some m := by
        rw [hmid]; exact hm
      rw [recordAttendance_conflict _ a2.request a2.newId a2.now m hm2 hs
        (by rw [hmid, hip]; simp only []; rw [hrows]; simp)]
      try (simp only []; rw [hrows]; rfl)
    · rw [recordAttendance_conflict st a1.request a1.newId a1.now m hm hs hd]
      simp only []
      rw [recordAttendance_conflict st a2.request a2.newId a2.now m (by rw [hmid]; exact hm)
        hs (by rw [hmid, hip]; exact hd)]
      try
        (simp only []
         have h2 : (rowsFor st.attendees (.text a1.request.meeting_id)
             (.text a1.request.ip_hash)).length ≠ 0 := by
           intro h0; exact hd (List.length_eq_zero.mp h0)
         omega)

theorem admission_serial_pair_once_witness :
    findMeeting activeStore aliceAdmission.request.meeting_id =
      some (sampleMeetingRow "ACTIVE") ∧
    (rowsFor (recordAttendance (recordAttendance activeStore aliceAdmission.request
        aliceAdmission.newId aliceAdmission.now).2
        aliceAgain.request aliceAgain.newId aliceAgain.now).2.attendees
      (.text aliceAdmission.request.meeting_id)
      (.text aliceAdmission.request.ip_hash)).length = 1 ∧
    (recordAttendance (recordAttendance activeStore aliceAdmission.request
        aliceAdmission.newId aliceAdmission.now).2
        aliceAgain.request aliceAgain.newId aliceAgain.now).1 = .conflict :=
  have h := admission_serial_pair_once activeStore aliceAdmission aliceAgain
    (sampleMeetingRow "ACTIVE") rfl rfl rfl rfl (by decide) (by decide)
    (by intro r hr; cases hr) (by decide)
  ⟨rfl, h.1, h.2.1⟩

/-- C8: when the meeting a request names has status PENDING or ENDED, `recordAttendance`
answers Forbidden (403) and leaves the store as it was, whatever the rest of the
request; and the attendees table changes only when the meeting exists and its status
is ACTIVE. -/
theorem recordAttendance_requires_active (st : Store) (req : AttendBody)
    (newId now : String) :
    (∀ m, findMeeting st req.meeting_id = some m →
      m.status = .text "PENDING" ∨ m.status = .text "ENDED" →
      recordAttendance st req newId now = (.forbidden, st) ∧
      (recordAttendance st req newId now).1.httpStatus = 403) ∧
    ((recordAttendance st req newId now).2.attendees ≠ st.attendees →
      ∃ m, findMeeting st req.meeting_id = some m ∧ m.status = .text "ACTIVE") := by
  constructor
  · intro m hm hst
    have hne : m.status ≠ .text "ACTIVE" := by
      rcases hst with h | h <;> rw [h] <;> decide
    have heq : recordAttendance st req newId now = (.forbidden, st) := by
      unfold recordAttendance
      rw [hm]
      simp only []
      rw [if_pos hne]
    exact ⟨heq, by rw [heq]; rfl⟩
  · intro hchange
    rcases recordAttendance_store st req newId now with h | ⟨_, hex, _⟩
    · rw [h] at hchange; exact absurd rfl hchange
    · exact hex

theorem recordAttendance_requires_active_witness :
    findMeeting pendingStore aliceRequest.meeting_id = some (sampleMeetingRow "PENDING") ∧
    recordAttendance pendingStore aliceRequest "a1" "2024-05-01 09:05:00" =
      (.forbidden, pendingStore) ∧
    (recordAttendance pendingStore aliceRequest "a1"
      "2024-05-01 09:05:00").1.httpStatus = 403 :=
  ⟨rfl,
    (recordAttendance_requires_active pendingStore aliceRequest "a1"
      "2024-05-01 09:05:00").1 (sampleMeetingRow "PENDING") rfl (Or.inl rfl)⟩

/-! ### initDb -/

/-- A table or a view of this name exists, which is when CREATE TABLE IF NOT EXISTS
has no effect. -/
theorem createTable_noop (db : Database) (name : String) (definition : TableDef)
    (h : ∃ o, lookupObject db name = some o ∧ ∀ t c, o.2 ≠ .index t c) :
    createTableIfNotExists db name definition = .ok db := by
  obtain ⟨⟨stored, obj⟩, ho, hk⟩ := h
  unfold createTableIfNotExists
  rw [ho]
  cases obj with
  | table d rows => rfl
  | view sql => rfl
  | index t c => exact absurd rfl (hk t c)

theorem lookupObject_append (db : Database) (name : String) (o x : String × SchemaObject)
    (h : lookupObject db name = some o) : lookupObject (db ++ [x]) name = some o := by
  unfold lookupObject at h ⊢
  rw [List.find?_append, h]
  rfl

theorem lookupObject_created (db : Database) (name : String) (definition : TableDef)
    (h : lookupObject db name = none) :
    lookupObject (db ++ [(name, .table definition [])]) name =
      some (name, .table definition []) := by
  unfold lookupObject at h ⊢
  rw [List.find?_append, h]
  simp [sameName]

theorem createTable_present (db db1 : Database) (name : String) (definition : TableDef)
    (h : createTableIfNotExists db name definition = .ok db1) :
    ∃ o, lookupObject db1 name = some o ∧ ∀ t c, o.2 ≠ .index t c := by
  unfold createTableIfNotExists at h
  split at h
  · rename_i stored d rows ho
    cases h
    exact ⟨_, ho, by intro t c hc; cases hc⟩
  · rename_i stored sql ho
    cases h
    exact ⟨_, ho, by intro t c hc; cases hc⟩
  · cases h
  · rename_i ho
    cases h
    exact ⟨_, lookupObject_created db name definition ho, by intro t c hc; cases hc⟩

theorem createTable_keeps (db db1 : Database) (name other : String) (definition : TableDef)
    (o : String × SchemaObject) (ho : lookupObject db other = some o)
    (h : createTableIfNotExists db name definition = .ok db1) :
    lookupObject db1 other = some o := by
  unfold createTableIfNotExists at h
  split at h
  · cases h; exact ho
  · cases h; exact ho
  · cases h
  · cases h; exact lookupObject_append db other o _ ho

/-- C11: running `initDb` on the database a run of `initDb` left gives the same
database and ends the same way, whatever the database was at the start; and on a
database that already holds the tables meetings and attendees, `initDb` returns
normally and leaves the whole database, so their definitions and rows, as it was. -/
theorem initDb_idempotent (db : Database) :
    initDb (initDb db).1 = initDb db ∧
    (∀ (d1 d2 : TableDef) (rows1 rows2 : List (List SqlValue)),
      HoldsTable db "meetings" d1 rows1 → HoldsTable db "attendees" d2 rows2 →
      initDb db = (db, .initialized) ∧
      HoldsTable (initDb db).1 "meetings" d1 rows1 ∧
      HoldsTable (initDb db).1 "attendees" d2 rows2) := by
  constructor
  · cases h1 : createTableIfNotExists db "meetings" meetingsDef with
    | error message =>
      have hrun : initDb db = (db, .threw message) := by
        unfold initDb; rw [h1]
      rw [hrun]
      exact hrun
    | ok db1 =>
      have hm1 := createTable_present db db1 "meetings" meetingsDef h1
      cases h2 : createTableIfNotExists db1 "attendees" attendeesDef with
      | error message =>
        have hrun : initDb db = (db1, .threw message) := by
          unfold initDb; rw [h1]; simp only []; rw [h2]
        rw [hrun]
        unfold initDb
        rw [createTable_noop db1 "meetings" meetingsDef hm1]
        simp only []
        rw [h2]
      | ok db2 =>
        have hrun : initDb db = (db2, .initialized) := by
          unfold initDb; rw [h1]; simp only []; rw [h2]
        rw [hrun]
        obtain ⟨o, ho, hk⟩ := hm1
        have hm2 : ∃ o, lookupObject db2 "meetings" = some o ∧ ∀ t c, o.2 ≠ .index t c :=
          ⟨o, createTable_keeps db1 db2 "attendees" "meetings" attendeesDef o ho h2, hk⟩
        have ha2 := createTable_present db1 db2 "attendees" attendeesDef h2
        unfold initDb
        rw [createTable_noop db2 "meetings" meetingsDef hm2]
        simp only []
        rw [createTable_noop db2 "attendees" attendeesDef ha2]
  · intro d1 d2 rows1 rows2 hm ha
    obtain ⟨s1, hs1⟩ := hm
    obtain ⟨s2, hs2⟩ := ha
    have hrun : initDb db = (db, .initialized) := by
      unfold initDb
      rw [createTable_noop db "meetings" meetingsDef
        ⟨_, hs1, by intro t c hc; cases hc⟩]
      simp only []
      rw [createTable_noop db "attendees" attendeesDef
        ⟨_, hs2, by intro t c hc; cases hc⟩]
    rw [hrun]
    exact ⟨rfl, ⟨s1, hs1⟩, ⟨s2, hs2⟩⟩

theorem initDb_idempotent_witness :
    initDb [] = ([("meetings", .table meetingsDef []), ("attendees", .table attendeesDef [])],
      .initialized) ∧
    initDb (initDb []).1 = initDb [] ∧
    initDb usedDatabase = (usedDatabase, .initialized) :=
  ⟨by decide, (initDb_idempotent []).1,
    ((initDb_idempotent usedDatabase).2 meetingsDef attendeesDef
      [[.text "m1", .text "Standup", .text "s3cret", .text "ACTIVE",
        .text "2024-05-01 09:00:00"]]
      [[.text "a1", .text "m1", .text "Alice", .text "sig", .text "dev1",
        .text "2024-05-01 09:05:00"]]
      ⟨"meetings", by decide⟩ ⟨"attendees", by decide⟩).1⟩

/-! ### The device identifier -/

theorem getItem_setItem (store : Storage) (key value : String) :
    getItem (setItem store key value) key = some value := by
  simp [getItem, setItem]

theorem getItem_setItem_other (store : Storage) (key value other : String)
    (h : other ≠ key) : getItem (setItem store key value) other = getItem store other := by
  have hfind : ∀ l : Storage,
      (l.filter (fun kv => !decide (kv.1 = key))).find? (fun kv => decide (kv.1 = other)) =
        l.find? (fun kv => decide (kv.1 = other)) := by
    intro l
    induction l with
    | nil => rfl
    | cons x rest ih =>
      by_cases hx : x.1 = key
      · have hne : ¬ x.1 = other := by rw [hx]; exact fun hc => h hc.symm
        simp [List.filter_cons, List.find?_cons, hx, hne, ih, Ne.symm h]
      · by_cases ho : x.1 = other
        · simp [List.filter_cons, List.find?_cons, hx, ho, h]
        · simp [List.filter_cons, List.find?_cons, hx, ho, ih]
  have hk : ¬ key = other := fun hc => h hc.symm
  unfold getItem setItem
  rw [List.find?_cons]
  simp only [hk, decide_False]
  rw [hfind store]

theorem attended_key_ne (id : String) : "device_id" ≠ "attended_" ++ id := by
  intro h
  have h2 := congrArg String.data h
  rw [String.data_append] at h2
  have h3 : ("device_id".data).head? = ("attended_".data ++ id.data).head? :=
    congrArg List.head? h2
  have h4 : ("attended_".data ++ id.data).head? = some 'a' := rfl
  rw [h4] at h3
  exact absurd h3 (by decide)

theorem deviceIdentity_stored (b : Browser) :
    getItem (deviceIdentity b).2 "device_id" = some (deviceIdentity b).1 := by
  unfold deviceIdentity
  cases h : getItem b.localStorage "device_id" with
  | none => exact getItem_setItem _ _ _
  | some stored =>
    by_cases hs : stored = ""
    · simp only [hs, if_true]; exact getItem_setItem _ _ _
    · simp only [hs, if_false]; exact h

theorem deviceIdentity_kept (b : Browser) (s : String)
    (h : getItem b.localStorage "device_id" = some s) (hs : s ≠ "") :
    deviceIdentity b = (s, b.localStorage) := by
  unfold deviceIdentity
  rw [h]
  simp [hs]

theorem sendAttendance_device (id : String) (v : AttendeeView) (b : Browser)
    (signature : String) (server : AttendBody → PostReply) :
    (sendAttendance id v b signature server).sent = some (attendBody id v b signature) ∧
    getItem (sendAttendance id v b signature server).localStorage "device_id" =
      some (deviceIdentity b).1 := by
  cases h : server (attendBody id v b signature) with
  | resolved =>
    rw [sendAttendance_resolved id v b signature server h]
    refine ⟨rfl, ?_⟩
    show getItem (setItem (deviceIdentity b).2 ("attended_" ++ id) "true") "device_id" = _
    rw [getItem_setItem_other _ _ _ _ (attended_key_ne id)]
    exact deviceIdentity_stored b
  | rejected status message =>
    rw [sendAttendance_rejected id v b signature server status message h]
    exact ⟨rfl, deviceIdentity_stored b⟩

theorem handleSubmit_device (id : String) (v : AttendeeView) (b : Browser)
    (server : AttendBody → PostReply) :
    ((handleSubmit id v b server).sent = none ∧
      (handleSubmit id v b server).localStorage = b.localStorage) ∨
    ((∃ body, (handleSubmit id v b server).sent = some body ∧
        body.ip_hash = (deviceIdentity b).1) ∧
      getItem (handleSubmit id v b server).localStorage "device_id" =
        some (deviceIdentity b).1) := by
  by_cases h : jsTrim v.name = ""
  · left; rw [handleSubmit_name_empty id v b server h]; exact ⟨rfl, rfl⟩
  · cases hc : b.canvas.empty with
    | true => left; rw [handleSubmit_canvas_empty id v b server h hc]; exact ⟨rfl, rfl⟩
    | false =>
      cases hs : b.canvas.dataURL with
      | error message =>
        left; rw [handleSubmit_signature_error id v b server h hc message hs]
        exact ⟨rfl, rfl⟩
      | ok signature =>
        right
        rw [handleSubmit_sends id v b server h hc signature hs]
        exact ⟨⟨_, (sendAttendance_device id _ b signature server).1, rfl⟩,
          (sendAttendance_device id _ b signature server).2⟩

/-- C13: the ip_hash of the POST that `handleSubmit` sends is the value stored under
device_id after the call; a call that passes validation and gets its signature sends
a POST; a non-empty device_id stored before the call is still stored after it and is
the ip_hash sent; hence a second submission from the storage the first one left
sends the same ip_hash. -/
theorem device_id_persisted (id : String) (v : AttendeeView) (b : Browser)
    (server : AttendBody → PostReply) :
    (∀ body, (handleSubmit id v b server).sent = some body →
      getItem (handleSubmit id v b server).localStorage "device_id" = some body.ip_hash) ∧
    (∀ signature, jsTrim v.name ≠ "" → b.canvas.empty = false →
      b.canvas.dataURL = .ok signature →
      ∃ body, (handleSubmit id v b server).sent = some body) ∧
    (∀ s, getItem b.localStorage "device_id" = some s → s ≠ "" →
      getItem (handleSubmit id v b server).localStorage "device_id" = some s ∧
      ∀ body, (handleSubmit id v b server).sent = some body → body.ip_hash = s) ∧
    (∀ s (id2 : String) (v2 : AttendeeView) (b2 : Browser) (server2 : AttendBody → PostReply)
      (body1 body2 : AttendBody),
      getItem b.localStorage "device_id" = some s → s ≠ "" →
      b2.localStorage = (handleSubmit id v b server).localStorage →
      (handleSubmit id v b server).sent = some body1 →
      (handleSubmit id2 v2 b2 server2).sent = some body2 →
      body1.ip_hash = body2.ip_hash) := by
  have hkept : ∀ (id : String) (v : AttendeeView) (b : Browser)
      (server : AttendBody → PostReply) (s : String),
      getItem b.localStorage "device_id" = some s → s ≠ "" →
      getItem (handleSubmit id v b server).localStorage "device_id" = some s ∧
      ∀ body, (handleSubmit id v b server).sent = some body → body.ip_hash = s := by
    intro id v b server s hs hne
    have hdev := deviceIdentity_kept b s hs hne
    rcases handleSubmit_device id v b server with ⟨hnone, hls⟩ | ⟨⟨body, hsent, hip⟩, hget⟩
    · refine ⟨by rw [hls]; exact hs, ?_⟩
      intro body hb
      rw [hnone] at hb
      cases hb
    · rw [hdev] at hip hget
      refine ⟨hget, ?_⟩
      intro body2 hb
      rw [hsent] at hb
      cases hb
      exact hip
  refine ⟨?_, ?_, hkept id v b server, ?_⟩
  · intro body hb
    rcases handleSubmit_device id v b server with ⟨hnone, _⟩ | ⟨⟨body2, hsent, hip⟩, hget⟩
    · rw [hnone] at hb; cases hb
    · rw [hsent] at hb
      cases hb
      rw [hget, hip]
  · intro signature hname hc hs
    rw [handleSubmit_sends id v b server hname hc signature hs]
    exact ⟨_, (sendAttendance_device id _ b signature server).1⟩
  · intro s id2 v2 b2 server2 body1 body2 hs hne hb2 h1 h2
    have k1 := hkept id v b server s hs hne
    have k2 := hkept id2 v2 b2 server2 s (by rw [hb2]; exact k1.1) hne
    rw [k1.2 body1 h1, k2.2 body2 h2]

theorem device_id_persisted_witness :
    (handleSubmit "m1" sampleFormView sampleBrowser acceptingServer).sent =
      some { meeting_id := "m1", name := " Alice ",
             signature := "data:image/png;base64,iVBORw0KGgo=", ip_hash := "k3j9x2a7" } ∧
    getItem (handleSubmit "m1" sampleFormView sampleBrowser acceptingServer).localStorage
      "device_id" = some "k3j9x2a7" ∧
    getItem (handleSubmit "m1" sampleFormView returningBrowser duplicateServer).localStorage
      "device_id" = some "k3j9x2a7" :=
  ⟨by decide,
    (device_id_persisted "m1" sampleFormView sampleBrowser acceptingServer).1
      { meeting_id := "m1", name := " Alice ",
        signature := "data:image/png;base64,iVBORw0KGgo=", ip_hash := "k3j9x2a7" }
      (by decide),
    ((device_id_persisted "m1" sampleFormView returningBrowser duplicateServer).2.2.1
      "k3j9x2a7" (by decide) (by decide)).1⟩

/-! ### The config route and the join link -/

/-- C14: whatever the PORT entry of the environment, the config route answers the ip
`getLocalIp` returns and the port 3000, while the port the server listens on is the
PORT entry when that is set and not empty: the two differ under PORT 8080. -/
theorem getConfig_port_constant (envPort : Option String)
    (interfaces : List (String × List NetworkInterfaceInfo)) :
    getConfig (startServer envPort interfaces) =
      { ip := getLocalIp interfaces, port := 3000 } ∧
    (startServer (some "8080") interfaces).port = .fromEnv "8080" ∧
    (getConfig (startServer (some "8080") interfaces)).port = 3000 ∧
    (startServer none interfaces).port = .number 3000 :=
  ⟨rfl, rfl, rfl, rfl⟩

theorem configEffect_host (d : Dashboard) (r : Reply ConfigData) :
    (∀ data ip, r = .resolved data → data.ip = some ip → ip ≠ "" → ip ≠ "localhost" →
      (configEffect d r).serverIp = ip) ∧
    ((∀ data ip, r = .resolved data → data.ip = some ip → ip = "" ∨ ip = "localhost") →
      configEffect d r = d) := by
  constructor
  · intro data ip hr hip h1 h2
    subst hr
    simp [configEffect, hip, h1, h2]
  · intro h
    cases r with
    | rejected status => rfl
    | resolved data =>
      cases hip : data.ip with
      | none => simp [configEffect, hip]
      | some ip =>
        rcases h data ip rfl hip with h1 | h1 <;> simp [configEffect, hip, h1]

/-- C12: the join link is protocol, two slashes, host, a colon, the port of the page
and /join/ with the meeting id, where the host is the ip of the config reply when
that ip is not empty and not localhost, and the hostname of the page when the ip is
missing, empty or localhost or the request failed; so when `getLocalIp` fell back to
localhost the host of the link is localhost only if the page itself was opened on
localhost. The dashboard is any state whose server ip is still the hostname it was
initialised with. -/
theorem joinLink_host (location : BrowserLocation) (d : Dashboard) (id : String)
    (r : Reply ConfigData) (hd : d.serverIp = location.hostname) :
    joinLink location (configEffect d r) id =
      location.protocol ++ "//" ++ (configEffect d r).serverIp ++ ":" ++
        location.port ++ "/join/" ++ id ∧
    (∀ data ip, r = .resolved data → data.ip = some ip → ip ≠ "" → ip ≠ "localhost" →
      (configEffect d r).serverIp = ip) ∧
    ((∀ data ip, r = .resolved data → data.ip = some ip → ip = "" ∨ ip = "localhost") →
      (configEffect d r).serverIp = location.hostname) ∧
    (∀ server : ServerProcess, getLocalIp server.interfaces = "localhost" →
      r = .resolved (getConfig server).toData →
      (configEffect d r).serverIp = location.hostname ∧
      ((configEffect d r).serverIp = "localhost" → location.hostname = "localhost")) := by
  have hloc : ∀ server : ServerProcess, getLocalIp server.interfaces = "localhost" →
      r = .resolved (getConfig server).toData →
      (configEffect d r).serverIp = location.hostname := by
    intro server hfall hr
    subst hr
    simp [configEffect, ConfigAnswer.toData, getConfig, hfall, hd]
  refine ⟨rfl, (configEffect_host d r).1, ?_, ?_⟩
  · intro h
    rw [(configEffect_host d r).2 h]
    exact hd
  · intro server hfall hr
    refine ⟨hloc server hfall hr, ?_⟩
    intro h
    rw [hloc server hfall hr] at h
    exact h

theorem joinLink_host_witness :
    (initialDashboard lanLocation (some "s3cret")).serverIp = lanLocation.hostname ∧
    getLocalIp loopbackOnly = "localhost" ∧
    joinLink lanLocation
      (configEffect (initialDashboard lanLocation (some "s3cret"))
        (.resolved (getConfig (startServer none loopbackOnly)).toData)) "m1" =
      "http://192.168.1.7:3000/join/m1" ∧
    joinLink localLocation
      (configEffect (initialDashboard localLocation none)
        (.resolved (getConfig (startServer none sampleInterfaces)).toData)) "m1" =
      "http://192.168.1.20:5173/join/m1" :=
  ⟨rfl, by decide,
    by
      have h := (joinLink_host lanLocation (initialDashboard lanLocation (some "s3cret"))
        "m1" (.resolved (getConfig (startServer none loopbackOnly)).toData) rfl).2.2.2
        (startServer none loopbackOnly) (by decide) rfl
      have hl := (joinLink_host lanLocation (initialDashboard lanLocation (some "s3cret"))
        "m1" (.resolved (getConfig (startServer none loopbackOnly)).toData) rfl).1
      rw [hl, h.1]
      decide,
    by
      have h := (joinLink_host localLocation (initialDashboard localLocation none) "m1"
        (.resolved (getConfig (startServer none sampleInterfaces)).toData) rfl).2.1
        (getConfig (startServer none sampleInterfaces)).toData "192.168.1.20" rfl
        (by decide) (by decide) (by decide)
      have hl := (joinLink_host localLocation (initialDashboard localLocation none) "m1"
        (.resolved (getConfig (startServer none sampleInterfaces)).toData) rfl).1
      rw [hl, h]
      decide⟩

/-- C15: when the status POST succeeds, `updateStatus` replaces the status of the
local meeting by newStatus and keeps its id and title, and it leaves the secret, the
flags and the server ip alone; when the POST fails it leaves the whole dashboard
state, the meeting and the attendee list included, as it was. -/
theorem updateStatus_frame (d : Dashboard) (newStatus : String)
    (ra : Reply (List AttendeeInfo)) :
    (∀ m, d.meeting = some m →
      (updateStatus d newStatus (.resolved ()) ra).meeting =
        some { id := m.id, title := m.title, status := some newStatus }) ∧
    (updateStatus d newStatus (.resolved ()) ra).secret = d.secret ∧
    (updateStatus d newStatus (.resolved ()) ra).loading = d.loading ∧
    (updateStatus d newStatus (.resolved ()) ra).isAuthenticated = d.isAuthenticated ∧
    (updateStatus d newStatus (.resolved ()) ra).serverIp = d.serverIp ∧
    (∀ status, updateStatus d newStatus (.rejected status) ra = d) := by
  refine ⟨?_, ?_, ?_, ?_, ?_, fun _ => rfl⟩
  · intro m hm
    simp [updateStatus, fetchAttendees_meeting, withStatus, hm]
  all_goals cases ra <;> rfl

theorem updateStatus_frame_witness :
    (updateStatus sampleDashboard "ACTIVE" (.resolved ()) (.rejected none)).meeting =
      some { id := some "m1", title := some "Standup", status := some "ACTIVE" } ∧
    updateStatus sampleDashboard "ACTIVE" (.rejected (some 403)) (.resolved []) =
      sampleDashboard :=
  ⟨(updateStatus_frame sampleDashboard "ACTIVE" (.rejected none)).1 _ rfl,
    (updateStatus_frame sampleDashboard "ACTIVE" (.resolved [])).2.2.2.2.2 (some 403)⟩

end MeetingAttendance
